import Mathlib

/-!
Shallow embedding of the FinAdvisor staged recommendation pipeline
(`src/agent/functions.py`, `src/agent/agent_code4.py`,
`src/agent/selected_investments.py`, `src/agent/models.py`).

Numbers are modelled as exact rationals (`ℚ`); Python `round(x, 2)` becomes
`round2`.  Python dict values that may hold several runtime types are modelled
by `PVal`; an absent key or a `None` value is `Option.none` / `PVal.vnone`.
Python exceptions raised inside a stage are modelled with `Except PyErr`;
a stage that catches all exceptions is a total Lean function, and
`analyze_goals_and_risk`, which has no try/except in the source, returns
`Except PyErr GraphState`.
-/

namespace FinAdvisor

/-- Python `round(x, 2)` modelled over exact rationals: round `100 x` to the
nearest integer and divide by `100`.  (CPython rounds binary floats with
round-half-to-even; over exact rationals the two schemes differ only on exact
half-cent boundaries, and every property proved here is insensitive to that.) -/
def round2 (q : ℚ) : ℚ := (round (q * 100) : ℤ) / 100

/-- A Python value held in a profile field: a number, a string, or `None`. -/
inductive PVal where
  | vnum (q : ℚ)
  | vstr (s : String)
  | vnone
  deriving DecidableEq

/-- A Python exception: `ValueError` (caught separately by several stages)
or any other exception (`TypeError`, `KeyError`, `NameError`, ...), which the
stages catch with a generic `except Exception` branch. -/
inductive PyErr where
  | valueError (msg : String)
  | otherError (msg : String)
  deriving DecidableEq

/-- ASCII lower-casing of one character, as Python `str.lower` acts on the
basic latin range (the profile values exercised by the pipeline are ASCII). -/
def pyCharLower : Char → Char
  | 'A' => 'a' | 'B' => 'b' | 'C' => 'c' | 'D' => 'd' | 'E' => 'e' | 'F' => 'f'
  | 'G' => 'g' | 'H' => 'h' | 'I' => 'i' | 'J' => 'j' | 'K' => 'k' | 'L' => 'l'
  | 'M' => 'm' | 'N' => 'n' | 'O' => 'o' | 'P' => 'p' | 'Q' => 'q' | 'R' => 'r'
  | 'S' => 's' | 'T' => 't' | 'U' => 'u' | 'V' => 'v' | 'W' => 'w' | 'X' => 'x'
  | 'Y' => 'y' | 'Z' => 'z'
  | c => c

/-- Python `str.lower` (ASCII range). -/
def pyLower (s : String) : String := String.mk (s.data.map pyCharLower)

/-- ASCII upper-casing of one character, for Python `str.capitalize`. -/
def pyCharUpper : Char → Char
  | 'a' => 'A' | 'b' => 'B' | 'c' => 'C' | 'd' => 'D' | 'e' => 'E' | 'f' => 'F'
  | 'g' => 'G' | 'h' => 'H' | 'i' => 'I' | 'j' => 'J' | 'k' => 'K' | 'l' => 'L'
  | 'm' => 'M' | 'n' => 'N' | 'o' => 'O' | 'p' => 'P' | 'q' => 'Q' | 'r' => 'R'
  | 's' => 'S' | 't' => 'T' | 'u' => 'U' | 'v' => 'V' | 'w' => 'W' | 'x' => 'X'
  | 'y' => 'Y' | 'z' => 'Z'
  | c => c

/-- Python `str.capitalize`: first character upper-cased, rest lower-cased. -/
def pyCapitalize (s : String) : String :=
  match s.data with
  | [] => ""
  | c :: rest => String.mk (pyCharUpper c :: rest.map pyCharLower)

/-- Value of a digit list read in base 10. -/
def digitsToNat (l : List Char) : Nat :=
  l.foldl (fun n c => 10 * n + (c.toNat - 48)) 0

/-- Parse a non-empty all-digit character list. -/
def parseDigits (l : List Char) : Option Nat :=
  if l ≠ [] ∧ l.all Char.isDigit then some (digitsToNat l) else none

/-- Python `str.strip()` (also the whitespace stripping `float(str)` and
`int(str)` perform): drop whitespace from both ends. -/
def pyStrip (s : String) : String :=
  String.mk (((s.data.dropWhile Char.isWhitespace).reverse.dropWhile Char.isWhitespace).reverse)

/-- Python `float(s)` on a plain decimal literal with optional sign and
optional decimal point (the only string forms the pipeline data can carry;
exponents, underscores, `inf`/`nan` are outside the model). -/
def parseFloat (s : String) : Option ℚ :=
  let t := pyStrip s
  let signed : Bool × List Char :=
    match t.data with
    | '-' :: rest => (true, rest)
    | '+' :: rest => (false, rest)
    | l => (false, l)
  let core : Option ℚ :=
    match (String.mk signed.2).splitOn "." with
    | [ip] => (parseDigits ip.data).map (fun n => (n : ℚ))
    | [ip, fp] =>
        if (ip.data ≠ [] ∨ fp.data ≠ []) ∧ ip.data.all Char.isDigit ∧ fp.data.all Char.isDigit
        then some ((digitsToNat ip.data : ℚ) + (digitsToNat fp.data : ℚ) / (10 ^ fp.data.length))
        else none
    | _ => none
  core.map (fun q => if signed.1 then -q else q)

/-- Python `int(s)` on a string: optional sign followed by digits. -/
def parseIntStr (s : String) : Option ℤ :=
  let t := pyStrip s
  match t.data with
  | '-' :: rest => (parseDigits rest).map (fun n => -(n : ℤ))
  | '+' :: rest => (parseDigits rest).map (fun n => (n : ℤ))
  | l => (parseDigits l).map (fun n => (n : ℤ))

/-- Truncation of a rational toward zero, as Python `int(float)`. -/
def ratTrunc (q : ℚ) : ℤ := q.num.tdiv q.den

/-- Python `float(v)` on a dynamically typed value.  `float(None)` raises
`TypeError`; an unparseable string raises `ValueError`. -/
def pyFloatPV : PVal → Except PyErr ℚ
  | .vnum q => .ok q
  | .vnone => .error (.otherError "float argument must be a string or a real number, not NoneType")
  | .vstr s =>
      match parseFloat s with
      | some q => .ok q
      | none => .error (.valueError ("could not convert string to float: " ++ s))

/-- Python `int(v)` on a dynamically typed value. -/
def pyIntPV : PVal → Except PyErr ℤ
  | .vnum q => .ok (ratTrunc q)
  | .vnone => .error (.otherError "int argument must be a string or a number, not NoneType")
  | .vstr s =>
      match parseIntStr s with
      | some n => .ok n
      | none => .error (.valueError ("invalid literal for int() with base 10: " ++ s))

/-- Python `str(v)`.  (The numeral rendering of `str(float)` is irrelevant to
every property proved here; the pipeline only applies `str` to strings.) -/
def pyStr : PVal → String
  | .vstr s => s
  | .vnum q => toString q
  | .vnone => "None"

/-- Python `.lower()` on a dynamically typed value; a non-string has no
`lower` attribute and raises `AttributeError`. -/
def pyLowerPV : PVal → Except PyErr String
  | .vstr s => .ok (pyLower s)
  | _ => .error (.otherError "object has no attribute lower")

/-- Python `", ".join l`. -/
def joinComma (l : List String) : String := String.intercalate ", " l

/-- The message carried by a modelled Python exception. -/
def pyErrMsg : PyErr → String
  | .valueError m => m
  | .otherError m => m

/-- Insert a thousands separator every three digits, walking a reversed digit
list (helper for Python `f-string` `,` grouping). -/
def commaGroupRev : List Char → ℕ → List Char
  | [], _ => []
  | c :: rest, k =>
      if k < 3 then c :: commaGroupRev rest (k + 1) else ',' :: c :: commaGroupRev rest 1

/-- Decimal digits of a natural number with thousands separators, as Python
`f"{n:,}"` renders the integer part. -/
def natCommaStr (n : ℕ) : String :=
  String.mk (((commaGroupRev (toString n).data.reverse 0).reverse))

/-- Two-digit rendering of a value below 100 (the cents of `:,.2f`). -/
def twoDigits (n : ℕ) : String := if n < 10 then "0" ++ toString n else toString n

/-- Python `f"{x:,.2f}"` over exact rationals: round to cents (the model of
CPython float rounding, see `round2`), group the integer part, two decimals. -/
def formatMoney (q : ℚ) : String :=
  let cents : ℤ := round (q * 100)
  let sign := if cents < 0 then "-" else ""
  let n := cents.natAbs
  sign ++ natCommaStr (n / 100) ++ "." ++ twoDigits (n % 100)

/-- Python `f"{x:.1f}"`: one decimal, no grouping. -/
def formatFixed1 (q : ℚ) : String :=
  let t : ℤ := round (q * 10)
  let sign := if t < 0 then "-" else ""
  let n := t.natAbs
  sign ++ toString (n / 10) ++ "." ++ toString (n % 10)

/-- Python `f"{x:.2f}"`: two decimals, no grouping. -/
def formatFixed2 (q : ℚ) : String :=
  let c : ℤ := round (q * 100)
  let sign := if c < 0 then "-" else ""
  let n := c.natAbs
  sign ++ toString (n / 100) ++ "." ++ twoDigits (n % 100)

/-- Python truthiness of an optional dynamic value: an absent key read with a
plain `.get`, `None`, `0` and `""` are falsy. -/
def pyTruthyPV : Option PVal → Bool
  | none => false
  | some .vnone => false
  | some (.vnum q) => q ≠ 0
  | some (.vstr s) => s ≠ ""

/-- The nested `format_currency` helper of `generate_final_recommendation`
(functions.py 1000-1001), on a value already known to be a float:
`f"₹{float(amount):,.2f}" if amount else "₹0.00"`. -/
def format_currency (amount : ℚ) : String :=
  if amount = 0 then "₹0.00" else "₹" ++ formatMoney amount

/-- `format_currency` on a raw profile value (functions.py 1010-1011): the
truthiness test runs first, then `float(amount)` may raise (e.g. on an
unparseable string), escaping to the stage handler. -/
def formatCurrencyPV (v : Option PVal) : Except PyErr String :=
  if pyTruthyPV v then do
    let q ← pyFloatPV (v.getD .vnone)
    pure ("₹" ++ formatMoney q)
  else pure "₹0.00"

/-- `format_currency` on an optional float (functions.py 1012): an absent key
yields `None`, which is falsy. -/
def formatCurrencyOQ : Option ℚ → String
  | none => "₹0.00"
  | some q => format_currency q

/-- Does `sub` occur as a contiguous substring of `l`? (Python `sub in s`.) -/
def listHasSub (l sub : List Char) : Bool :=
  if sub.isEmpty then true
  else
    match l with
    | [] => false
    | _ :: xs => sub.isPrefixOf l || listHasSub xs sub

/-- Python substring test `sub in s`. -/
def strContainsSub (s sub : String) : Bool := listHasSub s.data sub.data

/-- Split a character list at whitespace (helper for `splitWs`). -/
def wsSplit : List Char → List (List Char)
  | [] => [[]]
  | c :: rest =>
    match wsSplit rest with
    | [] => [[c]]
    | t :: ts => if c.isWhitespace then [] :: t :: ts else (c :: t) :: ts

/-- Python `s.split()`: split on whitespace, dropping empty tokens. -/
def splitWs (s : String) : List String :=
  ((wsSplit s.data).map String.mk).filter (fun t => t ≠ "")

/-- Stable descending insertion by a rational key (helper for `sortDescBy`). -/
def insertDescBy {α : Type} (key : α → ℚ) (x : α) : List α → List α
  | [] => [x]
  | y :: ys => if key y ≤ key x then x :: y :: ys else y :: insertDescBy key x ys

/-- Python `sorted(l, key=key, reverse=True)`: stable sort, largest key first. -/
def sortDescBy {α : Type} (key : α → ℚ) : List α → List α
  | [] => []
  | x :: xs => insertDescBy key x (sortDescBy key xs)

/-- A user profile dict (`user_profiles` row plus fields derived by the
pipeline).  The four base fields can hold arbitrary Python values (`PVal`);
the derived fields are always floats when set. -/
structure Profile where
  monthly_income : Option PVal := none
  monthly_expenses : Option PVal := none
  risk_appetite : Option PVal := none
  investment_horizon_years : Option PVal := none
  emergency_fund : Option ℚ := none
  monthly_investment : Option ℚ := none
  disposable_income : Option ℚ := none
  investment_goals : Option (List String) := none
  name : Option String := none
  email : Option String := none
  deriving DecidableEq

/-- The dict returned by `UserProfileTool._run`: either `{"error": ...}` or a
profile dict. -/
structure FetchedProfile where
  error : Option String := none
  data : Profile := {}
  deriving DecidableEq

/-- One instrument dict from market data / a selection.  Python instruments
are open dicts; the union of every key the pipeline reads is modelled, each
optional (`none` = key absent). -/
structure Inst where
  symbol : Option String := none
  name : Option String := none
  sector : Option String := none
  market_cap : Option ℚ := none
  risk_level : Option String := none
  scheme_name : Option String := none
  category : Option String := none
  returns_5y : Option ℚ := none
  bank : Option String := none
  tenure : Option String := none
  interest_rate : Option ℚ := none
  tenure_months : Option ℤ := none
  rate_pct : Option ℚ := none
  fund_house : Option String := none
  allocation_amount : Option ℚ := none
  allocation_percentage : Option ℚ := none
  reason : Option String := none
  deriving DecidableEq

/-- The market-data dict (`market_data.json` or `{"error": ...}`). -/
structure MarketData where
  fetchError : Option String := none
  stocks : List Inst := []
  mutual_funds : List Inst := []
  fixed_deposits : List Inst := []
  deriving DecidableEq

/-- An asset-allocation dict (`DEFAULT_ALLOCATIONS` entry plus metadata; the
`last_updated` timestamp is outside the model). -/
structure Allocation where
  equity : Option ℚ := none
  fixed_income : Option ℚ := none
  cash : Option ℚ := none
  gold : Option ℚ := none
  description : Option String := none
  risk_profile : Option String := none
  deriving DecidableEq

/-- The `selected_products` dict built by the product-selection stages. -/
structure SelectedProducts where
  stocks : List Inst := []
  mutual_funds : List Inst := []
  fixed_deposits : List Inst := []
  total_allocated : ℚ := 0
  deriving DecidableEq

/-- The `suggested_instruments` payload (three instrument lists). -/
structure SuggestedInstruments where
  stocks : List Inst := []
  mutual_funds : List Inst := []
  fixed_deposits : List Inst := []
  deriving DecidableEq

/-- How `suggested_instruments` is stored in the state:
`functions.select_investment_products` nests it one level
(`{"suggested_instruments": {...}}`), `selected_investments.select_investments`
stores it flat. -/
inductive SuggState where
  | wrapped (si : SuggestedInstruments)
  | flat (si : SuggestedInstruments)
  deriving DecidableEq

/-- The `projected_returns` dict. -/
structure ProjectedReturns where
  equity : ℚ := 0
  fixed_income : ℚ := 0
  gold : ℚ := 0
  cash : ℚ := 0
  total : ℚ := 0
  roi_percentage : ℚ := 0
  deriving DecidableEq

/-- One instrument entry of the final recommendation report: the union of
the keys written at functions.py lines 958-984 (suggested instruments) and
1026-1054 (selected investments), each optional.  `allocation_amount` here is
the CURRENCY STRING produced by the report's `format_currency`. -/
structure RecInstOut where
  name : Option String := none
  bank : Option String := none
  tenure_months : Option ℤ := none
  interest_rate : Option ℚ := none
  rate_pct : Option ℚ := none
  allocation_percentage : Option ℚ := none
  allocation_amount : Option String := none
  reason : Option String := none
  deriving DecidableEq

/-- The `personal_info` block of the final report (functions.py 1007-1013):
income/expense fields are formatted currency strings. -/
structure PersonalInfo where
  name : Option String := none
  email : Option String := none
  monthly_income : String := ""
  monthly_expenses : String := ""
  disposable_income : String := ""
  deriving DecidableEq

/-- The `investment_summary` block of the final report (functions.py
1014-1019). -/
structure InvestmentSummary where
  emergency_fund : String := ""
  monthly_investment : String := ""
  risk_profile : String := ""
  time_horizon_years : ℤ := 0
  deriving DecidableEq

/-- The `asset_allocation` block of the final report (functions.py
1020-1024): percentage strings such as `"60.0%"`. -/
structure AllocationPct where
  equity : String := ""
  fixed_income : String := ""
  cash : String := ""
  deriving DecidableEq

/-- The `selected_investments` block of the final report (functions.py
1025-1056). -/
structure SelectedInvestmentsOut where
  stocks : List RecInstOut := []
  mutual_funds : List RecInstOut := []
  fixed_deposits : List RecInstOut := []
  total_allocated : String := ""
  deriving DecidableEq

/-- The `suggested_instruments` block of the final report
(`final_suggested_instruments`, functions.py 957-984). -/
structure SuggestedInstrumentsOut where
  stocks : List RecInstOut := []
  mutual_funds : List RecInstOut := []
  fixed_deposits : List RecInstOut := []
  deriving DecidableEq

/-- The `projected_returns` block of the final report (functions.py
1058-1065): formatted currency / percentage strings. -/
structure ProjectedReturnsOut where
  equity : String := ""
  fixed_income : String := ""
  gold : String := ""
  cash : String := ""
  total : String := ""
  roi_percentage : String := ""
  deriving DecidableEq

/-- A recommendation payload stored under the `recommendation` state key.
Python reuses the key for three dict shapes: the fallback/error payloads
(`status`/`message`/`suggested_actions`/`user_id`) and the full report of
`generate_final_recommendation` (which also carries `status`, `message` and
`user_id`, plus the report blocks).  The union of all keys is modelled, the
report-only blocks as `Option` fields (`none` = key absent); the
`generated_at` timestamp is outside the model. -/
structure Recommendation where
  status : String := ""
  message : String := ""
  suggested_actions : List String := []
  user_id : Option ℤ := none
  personal_info : Option PersonalInfo := none
  investment_summary : Option InvestmentSummary := none
  asset_allocation : Option AllocationPct := none
  selected_investments : Option SelectedInvestmentsOut := none
  suggested_instruments : Option SuggestedInstrumentsOut := none
  projected_returns : Option ProjectedReturnsOut := none
  deriving DecidableEq

/-- The LangGraph `GraphState` dict (`models.GraphState` plus the extra keys
stages actually write).  `none` models both an absent key and a `None`
value. -/
structure GraphState where
  user_id : Option ℤ := none
  user_profile : Option Profile := none
  market_data : Option MarketData := none
  processed_market_data : Option MarketData := none
  emergency_fund : Option ℚ := none
  monthly_investment : Option ℚ := none
  risk_profile : Option String := none
  time_horizon : Option ℤ := none
  asset_allocation : Option Allocation := none
  selected_products : Option SelectedProducts := none
  suggested_instruments : Option SuggState := none
  projected_returns : Option ProjectedReturns := none
  recommendation : Option Recommendation := none
  missing_fields : Option (List String) := none
  status : Option String := none
  error : Option String := none
  deriving DecidableEq

/-- Result of the SQLite insert performed by `save_recommendation`. -/
inductive DbResult where
  | ok
  | fail (msg : String)
  deriving DecidableEq

/-- Outcome of the LLM call inside `selected_investments.select_investments`:
either the chain raised, or a defensively parsed `suggested_instruments`
payload (an un-parseable reply yields the empty payload, per the source). -/
inductive LLMOutcome where
  | raised (msg : String)
  | parsed (si : SuggestedInstruments)
  deriving DecidableEq

/-- Look a base profile field up by its Python key. -/
def profileGetPV (p : Profile) : String → Option PVal := fun field =>
  if field = "monthly_income" then p.monthly_income
  else if field = "monthly_expenses" then p.monthly_expenses
  else if field = "risk_appetite" then p.risk_appetite
  else if field = "investment_horizon_years" then p.investment_horizon_years
  else none

/-- Python `field not in profile or profile[field] is None`. -/
def fieldMissing (p : Profile) (f : String) : Bool :=
  match profileGetPV p f with
  | none => true
  | some .vnone => true
  | some _ => false

/-- The missing fields among `fields`, in declaration order (the Python list
comprehension in `fetch_user_profile` / `check_profile_completeness`). -/
def missingOf (p : Profile) (fields : List String) : List String :=
  fields.filter (fieldMissing p)

/-- functions.py `fetch_user_profile` (lines 14-81).  The external
`user_profile_tool._run` result is the `fetched` parameter. -/
def fetch_user_profile (st : GraphState) (fetched : FetchedProfile) : GraphState :=
  match st.user_id with
  | none => { st with error := some "No user_id provided in state", status := some "error" }
  | some uid =>
    if uid = 0 then
      { st with error := some "No user_id provided in state", status := some "error" }
    else
      match fetched.error with
      | some e =>
          { st with error := some ("Failed to fetch user profile: " ++ e),
                    status := some "error" }
      | none =>
          let missing := missingOf fetched.data
            ["monthly_income", "monthly_expenses", "risk_appetite"]
          if missing ≠ [] then
            { st with error := some ("Profile is missing required fields: " ++ joinComma missing),
                      status := some "error" }
          else
            { st with user_profile := some fetched.data, status := some "success" }

/-- functions.py `calculate_savings` (lines 83-96); the callers always pass
floats, so the `isinstance` guard never fires. -/
structure Savings where
  emergency_fund : ℚ
  monthly_investment : ℚ
  disposable_income : ℚ

/-- functions.py `calculate_savings` body. -/
def calculate_savings (monthly_income monthly_expenses : ℚ) : Savings :=
  let disposable_income := monthly_income - monthly_expenses
  let emergency_fund := 0.05 * disposable_income
  { emergency_fund := emergency_fund,
    monthly_investment := disposable_income - emergency_fund,
    disposable_income := disposable_income }

/-- The required base fields of `check_profile_completeness`. -/
def requiredFields : List String :=
  ["monthly_income", "monthly_expenses", "risk_appetite", "investment_horizon_years"]

/-- The `try` block of `check_profile_completeness` (source lines 133-168):
float conversions, derived savings fields, goal defaults and risk
normalisation.  A raised exception is the `Except.error` case.  (The source
mutates the profile dict in place, so on the exception path the derived fields
already written survive; nothing proved here depends on them, and the escaping
state keeps the original profile.) -/
def checkProfileBody (st : GraphState) (profile : Profile) : Except PyErr GraphState := do
  let monthly_income ← pyFloatPV (profile.monthly_income.getD .vnone)
  let monthly_expenses ← pyFloatPV (profile.monthly_expenses.getD .vnone)
  let savings := calculate_savings monthly_income monthly_expenses
  let profile := { profile with
    emergency_fund := some savings.emergency_fund,
    monthly_investment := some savings.monthly_investment,
    disposable_income := some savings.disposable_income }
  let profile :=
    if profile.investment_goals.getD [] = [] then
      { profile with investment_goals := some ["Wealth accumulation", "Retirement planning"] }
    else profile
  let risk_appetite := pyStrip (pyStr (profile.risk_appetite.getD (.vstr "")))
  let rl := pyLower risk_appetite
  let normalized ←
    if rl = "low" then pure "Low"
    else if rl = "medium" then pure "Medium"
    else if rl = "high" then pure "High"
    else throw (.valueError ("Invalid risk profile: " ++ risk_appetite))
  pure { st with
    user_profile := some { profile with risk_appetite := some (.vstr normalized) },
    status := some "profile_valid" }

/-- functions.py `check_profile_completeness` (lines 98-185). -/
def check_profile_completeness (st : GraphState) : GraphState :=
  let profile := st.user_profile.getD {}
  let missing := missingOf profile requiredFields
  if missing ≠ [] then
    { st with status := some "profile_incomplete",
              missing_fields := some missing,
              error := some ("Missing required fields: " ++ joinComma missing) }
  else
    match checkProfileBody st profile with
    | .ok st2 => st2
    | .error (.valueError m) =>
        { st with status := some "profile_invalid",
                  error := some ("Invalid profile data: " ++ m) }
    | .error (.otherError m) =>
        { st with status := some "error",
                  error := some ("Error processing profile: " ++ m) }

/-- functions.py `generate_fallback_recommendation` (lines 187-216). -/
def generate_fallback_recommendation (st : GraphState) : GraphState :=
  let status := st.status.getD "profile_incomplete"
  let message :=
    if status = "profile_incomplete" then
      match st.missing_fields.getD [] with
      | [] => "Please complete your profile to get personalized recommendations."
      | missing => "Please provide the following information: " ++ joinComma missing ++ "."
    else if status = "profile_invalid" then
      st.error.getD "Invalid profile information provided."
    else
      "Please complete your profile to get personalized recommendations."
  { st with
    recommendation := some {
      status := "fallback",
      message := message,
      suggested_actions := ["Update your financial information",
                            "Set clear investment goals",
                            "Complete your risk assessment"],
      user_id := st.user_id },
    status := some "completed_with_fallback" }

/-- functions.py `fetch_market_data` (lines 218-255); the external
`market_data_tool._run` result is the `fetched` parameter. -/
def fetch_market_data (st : GraphState) (fetched : MarketData) : GraphState :=
  match fetched.fetchError with
  | some e =>
      { st with error := some ("Market data error: " ++ e), status := some "error" }
  | none =>
      { st with market_data := some fetched, status := some "market_data_fetched" }

/-- functions.py `preprocess_market_data` (lines 257-301).  `state` without
market data hits `raise ValueError`, caught into `status="error"`; a
non-string risk appetite makes `.lower()` raise `AttributeError`, caught by
the same handler. -/
def preprocess_market_data (st : GraphState) : GraphState :=
  match st.market_data with
  | none =>
      { st with error := some "Error processing market data: No market data available for processing",
                status := some "error" }
  | some md =>
      let user_profile := st.user_profile.getD {}
      let processed : MarketData :=
        { stocks := md.stocks, mutual_funds := md.mutual_funds,
          fixed_deposits := md.fixed_deposits }
      match pyLowerPV (user_profile.risk_appetite.getD (.vstr "Medium")) with
      | .error _ =>
          { st with error := some "Error processing market data: object has no attribute lower",
                    status := some "error" }
      | .ok risk_profile =>
          let processed :=
            if risk_profile = "low" then
              { processed with stocks :=
                  processed.stocks.filter (fun s => pyLower (s.risk_level.getD "") = "low") }
            else processed
          { st with processed_market_data := some processed,
                    status := some "market_data_processed" }

/-- functions.py `calculate_emergency_fund` (lines 303-368). -/
def calculate_emergency_fund (st : GraphState) : GraphState :=
  let profile := st.user_profile.getD {}
  let converted : Except PyErr (ℚ × ℚ) := do
    let monthly_income ← pyFloatPV (profile.monthly_income.getD (.vnum 0))
    let monthly_expenses ← pyFloatPV (profile.monthly_expenses.getD (.vnum 0))
    pure (monthly_income, monthly_expenses)
  match converted with
  | .error (.valueError m) => { st with error := some m, status := some "error" }
  | .error (.otherError m) =>
      { st with error := some ("Error calculating emergency fund: " ++ m),
                status := some "error" }
  | .ok (monthly_income, monthly_expenses) =>
      let disposable_income := monthly_income - monthly_expenses
      if disposable_income ≤ 0 then
        { st with error := some "Monthly expenses exceed or equal monthly income",
                  status := some "error" }
      else
        let emergency_fund := round2 (disposable_income * 0.05)
        let monthly_investment := round2 (disposable_income * 0.95)
        { st with
          user_profile := some { profile with
            emergency_fund := some emergency_fund,
            monthly_investment := some monthly_investment },
          emergency_fund := some emergency_fund,
          monthly_investment := some monthly_investment,
          status := some "emergency_fund_calculated" }

/-- The keys of models.py `RISK_PROFILES` (lines 52-57): capitalised. -/
def riskProfileKeys : List String := ["Low", "Medium", "High"]

/-- functions.py `analyze_goals_and_risk` (lines 370-387).  The source has no
try/except, so exceptions escape the stage: the result is `Except`.  The
returned dict is the bare partial `{risk_profile, time_horizon, status}`. -/
def analyze_goals_and_risk (st : GraphState) : Except PyErr GraphState := do
  let profile := st.user_profile.getD {}
  let lowered ← pyLowerPV (profile.risk_appetite.getD (.vstr "moderate"))
  let risk_profile := if riskProfileKeys.contains lowered then lowered else "moderate"
  let time_horizon ← pyIntPV (profile.investment_horizon_years.getD (.vnum 5))
  pure { risk_profile := some risk_profile,
         time_horizon := some time_horizon,
         status := some "risk_analyzed" }

/-- models.py `DEFAULT_ALLOCATIONS` (lines 31-50) as a key lookup. -/
def DEFAULT_ALLOCATIONS_lookup (k : String) : Option Allocation :=
  if k = "low" then
    some { equity := some 0.3, fixed_income := some 0.5, cash := some 0.2,
           description := some "Conservative portfolio with focus on capital preservation" }
  else if k = "medium" then
    some { equity := some 0.6, fixed_income := some 0.3, cash := some 0.1,
           description := some "Balanced portfolio with moderate growth potential" }
  else if k = "high" then
    some { equity := some 0.8, fixed_income := some 0.15, cash := some 0.05,
           description := some "Aggressive portfolio with high growth potential" }
  else none

/-- functions.py `define_risk_based_allocation` (lines 389-427).  Nothing in
the body can raise, so the generic except branch is dead. -/
def define_risk_based_allocation (st : GraphState) : GraphState :=
  let rp0 := pyLower (st.risk_profile.getD "medium")
  let rp := if (DEFAULT_ALLOCATIONS_lookup rp0).isSome then rp0 else "medium"
  let alloc := (DEFAULT_ALLOCATIONS_lookup rp).getD {}
  let alloc := { alloc with risk_profile := some rp }
  { st with asset_allocation := some alloc, status := some "allocation_defined" }

/-- Ratio normalisation in functions.py `select_investment_products`
(lines 474-479): divide by the total only when it is positive. -/
def normalizeRatios (e f c : ℚ) : ℚ × ℚ × ℚ :=
  let t := e + f + c
  if 0 < t then (e / t, f / t, c / t) else (e, f, c)

/-- The hard-coded default stock of `select_investment_products` (line 556). -/
def defaultStock (amount : ℚ) : Inst :=
  { symbol := some "RELIANCE", name := some "Reliance Industries",
    sector := some "Conglomerate", allocation_amount := some amount }

/-- The hard-coded default mutual fund (line 561). -/
def defaultMutualFund (amount : ℚ) : Inst :=
  { scheme_name := some "HDFC Top 100 Fund", category := some "Equity",
    allocation_amount := some amount }

/-- The hard-coded default fixed deposit (line 566). -/
def defaultFixedDeposit (amount : ℚ) : Inst :=
  { bank := some "SBI", tenure := some "1 year", interest_rate := some 6.5,
    allocation_amount := some amount }

/-- Sum of the `allocation_amount` values of a selection (every selected
instrument carries the key). -/
def sumAlloc (l : List Inst) : ℚ := (l.map (fun x => x.allocation_amount.getD 0)).sum

/-- Tenure-to-months conversion in the `suggested_instruments` block of
`select_investment_products` (line 604):
`int(tenure.split()[0]) * 12 if "year" in tenure else int(tenure.split()[0])`,
where the conditional reads the tenure with default `""` and the operands with
default `"12"`.  An empty split raises `IndexError`; a non-numeric token
raises `ValueError`. -/
def pyTenureMonths (tenure : Option String) : Except PyErr ℤ :=
  let condStr := tenure.getD ""
  let valStr := tenure.getD "12"
  match splitWs valStr with
  | [] => .error (.otherError "list index out of range")
  | tok :: _ =>
      match parseIntStr tok with
      | some n => .ok (if strContainsSub condStr "year" then n * 12 else n)
      | none => .error (.valueError ("invalid literal for int() with base 10: " ++ tok))

/-- The stock ranking key of `select_investment_products` (line 505):
`x.get("market_cap", 0)`. -/
def stockKey : Inst → ℚ := fun x => x.market_cap.getD 0

/-- The mutual-fund ranking key (line 523): `x.get("returns_5y", 0)`. -/
def mfKey : Inst → ℚ := fun x => x.returns_5y.getD 0

/-- The fixed-deposit ranking key (line 540):
`float(x.get("interest_rate", 0))` (identity on the numeric model). -/
def fdKey : Inst → ℚ := fun x => x.interest_rate.getD 0

/-- The debt filter applied to mutual funds (lines 521-522). -/
def debtFunds (md : MarketData) : List Inst :=
  md.mutual_funds.filter (fun m => m.category == some "debt")

/-- One class-selection block of `select_investment_products` (the pattern of
lines 502-516, repeated for each class): when the class amount is positive,
sort the pool descending by the key, keep the top `n`, and give each selected
instrument an equal rounded share of the amount. -/
def selectTopInsts (key : Inst → ℚ) (pool : List Inst) (n : ℕ) (amount : ℚ) : List Inst :=
  if 0 < amount then
    let sorted := sortDescBy key pool
    let num := min n sorted.length
    if 0 < num then
      let per := round2 (amount / num)
      (sorted.take num).map (fun x => { x with allocation_amount := some per })
    else []
  else []

/-- The `suggested_instruments` entry built from one selected stock
(lines 585-592). -/
def suggestStock (monthly_investment : ℚ) (s : Inst) : Inst :=
  { name := some (s.name.getD (s.symbol.getD "Unknown")),
    allocation_percentage := some (if 0 < monthly_investment then
      s.allocation_amount.getD 0 / monthly_investment * 100 else 0),
    reason := some ("Selected based on market cap in " ++ s.sector.getD "various" ++ " sector") }

/-- The `suggested_instruments` entry built from one selected mutual fund
(lines 593-600). -/
def suggestMf (monthly_investment : ℚ) (m : Inst) : Inst :=
  { name := some (m.scheme_name.getD "Unknown Fund"),
    allocation_percentage := some (if 0 < monthly_investment then
      m.allocation_amount.getD 0 / monthly_investment * 100 else 0),
    reason := some ("Selected based on historical returns in " ++
      m.category.getD "various" ++ " category") }

/-- The `suggested_instruments` entry built from one selected fixed deposit
(lines 601-610): the tenure conversion can raise, aborting the stage body. -/
def suggestFd (monthly_investment : ℚ) (fd : Inst) : Except PyErr Inst := do
  let tm ← pyTenureMonths fd.tenure
  pure { bank := some (fd.bank.getD "Unknown Bank"),
         tenure_months := some tm,
         rate_pct := some (fd.interest_rate.getD 0),
         allocation_percentage := some (if 0 < monthly_investment then
           fd.allocation_amount.getD 0 / monthly_investment * 100 else 0),
         reason := some ("Selected based on interest rate of " ++
           toString (fd.interest_rate.getD 0) ++ "%") }

/-- The `try` body of functions.py `select_investment_products`
(lines 446-625). -/
def selectProductsBody (st : GraphState) : Except PyErr GraphState := do
  let user_profile := st.user_profile.getD {}
  let monthly_investment ←
    match st.monthly_investment with
    | some v => pure v
    | none =>
      match user_profile.monthly_investment with
      | some v => pure v
      | none => do
          let monthly_income ← pyFloatPV (user_profile.monthly_income.getD (.vnum 0))
          let monthly_expenses ← pyFloatPV (user_profile.monthly_expenses.getD (.vnum 0))
          pure ((monthly_income - monthly_expenses) * 0.95)
  if monthly_investment ≤ 0 then
    throw (.valueError "No monthly investment amount available")
  else do
  let alloc := st.asset_allocation.getD
    { equity := some 0.6, fixed_income := some 0.3, cash := some 0.1 }
  let ratios := normalizeRatios (alloc.equity.getD 0.6) (alloc.fixed_income.getD 0.3)
    (alloc.cash.getD 0.1)
  let equity_amount := monthly_investment * ratios.1
  let fixed_income_amount := monthly_investment * ratios.2.1
  let cash_amount := monthly_investment * ratios.2.2
  let md := st.market_data.getD {}
  let stocksSel : List Inst := selectTopInsts stockKey md.stocks 5 equity_amount
  let mfsSel : List Inst := selectTopInsts mfKey (debtFunds md) 3 fixed_income_amount
  let fdsSel : List Inst := selectTopInsts fdKey md.fixed_deposits 3 cash_amount
  let stocksSel := if stocksSel = [] ∧ 0 < equity_amount then [defaultStock equity_amount] else stocksSel
  let mfsSel := if mfsSel = [] ∧ 0 < fixed_income_amount then [defaultMutualFund fixed_income_amount] else mfsSel
  let fdsSel := if fdsSel = [] ∧ 0 < cash_amount then [defaultFixedDeposit cash_amount] else fdsSel
  let total_allocated := sumAlloc stocksSel + sumAlloc mfsSel + sumAlloc fdsSel
  let selected_products : SelectedProducts :=
    { stocks := stocksSel, mutual_funds := mfsSel, fixed_deposits := fdsSel,
      total_allocated := round2 total_allocated }
  let sugStocks : List Inst := stocksSel.map (suggestStock monthly_investment)
  let sugMfs : List Inst := mfsSel.map (suggestMf monthly_investment)
  let sugFds : List Inst ← fdsSel.mapM (suggestFd monthly_investment)
  pure { st with
    selected_products := some selected_products,
    suggested_instruments := some (.wrapped
      { stocks := sugStocks, mutual_funds := sugMfs, fixed_deposits := sugFds }),
    monthly_investment := some monthly_investment,
    status := some "products_selected" }

/-- functions.py `select_investment_products` (lines 429-642): the try body
with its two except handlers. -/
def select_investment_products (st : GraphState) : GraphState :=
  match selectProductsBody st with
  | .ok st2 => st2
  | .error (.valueError m) => { st with error := some m, status := some "error" }
  | .error (.otherError m) =>
      { st with error := some ("Error selecting investment products: " ++ m),
                status := some "error" }

/-- selected_investments.py `select_investments` (lines 32-334), the stage the
graph actually binds to the `select_investment_products` node.  The LLM call
and the defensive JSON recovery are collapsed into the `llm` parameter; the
risk/allocation massaging of lines 50-135 only shapes the LLM prompt and
cannot raise, except that a state without an `asset_allocation` dict reaches
`if not chosen_allocation` with the name unbound (`NameError`).  A state
without market data raises `ValueError` (line 48).  Both are caught by the
outer handler, which also stores an empty flat `suggested_instruments`. -/
def select_investments (st : GraphState) (llm : LLMOutcome) : GraphState :=
  let failed : String → GraphState := fun m =>
    { st with error := some ("Error selecting investments: " ++ m),
              suggested_instruments := some (.flat {}),
              status := some "error" }
  match st.market_data with
  | none => failed "No market data available in state"
  | some _ =>
    match st.asset_allocation with
    | none => failed "name chosen_allocation is not defined"
    | some _ =>
      match llm with
      | .raised m => failed m
      | .parsed si =>
          { st with
            suggested_instruments := some (.flat si),
            selected_products := some
              { stocks := si.stocks, mutual_funds := si.mutual_funds,
                fixed_deposits := si.fixed_deposits, total_allocated := 0 },
            status := some "products_selected" }

/-- agent_code4.py line 107: the graph node named `select_investment_products`
is bound to `selected_investments.select_investments`. -/
def select_investment_products_node : GraphState → LLMOutcome → GraphState :=
  select_investments

/-- functions.py `calculate_returns` (lines 644-712). -/
def calculate_returns (st : GraphState) : GraphState :=
  let monthly_investment :=
    match st.monthly_investment with
    | some v => v
    | none => (st.user_profile.getD {}).monthly_investment.getD 0
  if monthly_investment ≤ 0 then
    { st with
      error := some "Error calculating returns: No monthly investment amount available for return calculation",
      status := some "error" }
  else
    let alloc := st.asset_allocation.getD {}
    let equity_return := monthly_investment * alloc.equity.getD 0 * 0.10
    let fixed_income_return := monthly_investment * alloc.fixed_income.getD 0 * 0.06
    let gold_return := monthly_investment * alloc.gold.getD 0 * 0.04
    let cash_return := monthly_investment * alloc.cash.getD 0 * 0.03
    let total_return := equity_return + fixed_income_return + gold_return + cash_return
    let roi_percentage :=
      if 0 < monthly_investment then total_return / monthly_investment * 100 else 0
    { st with
      projected_returns := some
        { equity := equity_return, fixed_income := fixed_income_return,
          gold := gold_return, cash := cash_return, total := total_return,
          roi_percentage := roi_percentage },
      status := some "returns_calculated" }

/-- Lines 801-865 of functions.py: rebuild `selected_products` from the
(padded) suggested instruments.  The per-item `try/except` guards of lines
804-850 never fire in the model: `float(...get("allocation_percentage", 0))`
and `int(...get("tenure_months", 12))` act on fields the model already types
as numbers, so they are total here. -/
def processSuggested (monthly_investment : ℚ) (si : SuggestedInstruments) : SelectedProducts :=
  let stocks : List Inst := si.stocks.map (fun stock =>
    let alloc_pct := stock.allocation_percentage.getD 0
    let alloc_amount := if 0 < monthly_investment then monthly_investment * (alloc_pct / 100) else 0
    { name := some (stock.name.getD "Unknown"),
      symbol := some (stock.symbol.getD ""),
      sector := some (stock.sector.getD ""),
      allocation_percentage := some alloc_pct,
      allocation_amount := some alloc_amount,
      reason := some (stock.reason.getD "Recommended based on market analysis") })
  let mutual_funds : List Inst := si.mutual_funds.map (fun mf =>
    let alloc_pct := mf.allocation_percentage.getD 0
    let alloc_amount := if 0 < monthly_investment then monthly_investment * (alloc_pct / 100) else 0
    { name := some (mf.name.getD (mf.scheme_name.getD "Unknown Fund")),
      category := some (mf.category.getD ""),
      fund_house := some (mf.fund_house.getD ""),
      allocation_percentage := some alloc_pct,
      allocation_amount := some alloc_amount,
      reason := some (mf.reason.getD "Diversified investment option") })
  let fixed_deposits : List Inst := si.fixed_deposits.map (fun fd =>
    let alloc_pct := fd.allocation_percentage.getD 0
    let alloc_amount := if 0 < monthly_investment then monthly_investment * (alloc_pct / 100) else 0
    { bank := some (fd.bank.getD "Bank"),
      tenure_months := some (fd.tenure_months.getD 12),
      interest_rate := some (fd.interest_rate.getD (fd.rate_pct.getD 0)),
      allocation_percentage := some alloc_pct,
      allocation_amount := some alloc_amount,
      reason := some (fd.reason.getD "Low-risk fixed return investment") })
  let total_allocated :=
    ((stocks ++ mutual_funds ++ fixed_deposits).map (fun item => item.allocation_amount.getD 0)).sum
  { stocks := stocks, mutual_funds := mutual_funds,
    fixed_deposits := fixed_deposits, total_allocated := total_allocated }

/-- `final_suggested_instruments` (functions.py 957-984).  The line-960 name
default reads the leaked loop variable `stock` of line 803: whenever the
comprehension body runs the line-803 loop iterated the same nonempty list, so
`stock` is its last element. -/
def finalSuggestedOut (si : SuggestedInstruments) : SuggestedInstrumentsOut :=
  let lastStockSymbol :=
    match si.stocks.getLast? with
    | some t => t.symbol.getD "Stock"
    | none => "Stock"
  { stocks := si.stocks.map (fun s =>
      { name := some (s.name.getD lastStockSymbol),
        allocation_percentage := some (s.allocation_percentage.getD 0),
        reason := some (s.reason.getD "Recommended based on market analysis") }),
    mutual_funds := si.mutual_funds.map (fun mf =>
      { name := some (mf.name.getD (mf.scheme_name.getD "Mutual Fund")),
        allocation_percentage := some (mf.allocation_percentage.getD 0),
        reason := some (mf.reason.getD "Diversified investment option") }),
    fixed_deposits := si.fixed_deposits.map (fun fd =>
      { bank := some (fd.bank.getD "Bank"),
        tenure_months := some (fd.tenure_months.getD 12),
        rate_pct := some (fd.interest_rate.getD (fd.rate_pct.getD 0)),
        allocation_percentage := some (fd.allocation_percentage.getD 0),
        reason := some (fd.reason.getD "Low-risk fixed return investment") }) }

/-- The `recommendation` report dict (functions.py 1004-1068), assembled from
the values computed by the try-block; `incomeStr`/`expensesStr` are the
already-evaluated `format_currency` results for the two raw profile fields
(their `float(...)` may raise, so they are bound before this pure
construction). -/
def finalReport (st : GraphState) (user_profile : Profile)
    (emergency_fund monthly_investment : ℚ) (asset_allocation : Allocation)
    (selected_products : SelectedProducts) (fsi : SuggestedInstrumentsOut)
    (projected_returns : ProjectedReturns) (incomeStr expensesStr : String) :
    Recommendation :=
  { user_id := st.user_id,
    personal_info := some
      { name := user_profile.name, email := user_profile.email,
        monthly_income := incomeStr, monthly_expenses := expensesStr,
        disposable_income := formatCurrencyOQ user_profile.disposable_income },
    investment_summary := some
      { emergency_fund := format_currency emergency_fund,
        monthly_investment := format_currency monthly_investment,
        risk_profile := st.risk_profile.getD "medium",
        time_horizon_years := st.time_horizon.getD 5 },
    asset_allocation := some
      { equity := formatFixed1 (asset_allocation.equity.getD 0 * 100) ++ "%",
        fixed_income := formatFixed1 (asset_allocation.fixed_income.getD 0 * 100) ++ "%",
        cash := formatFixed1 (asset_allocation.cash.getD 0 * 100) ++ "%" },
    selected_investments := some
      { stocks := selected_products.stocks.map (fun stock =>
          { name := some (stock.name.getD (stock.symbol.getD "Unknown")),
            allocation_percentage := some (if 0 < monthly_investment then
              stock.allocation_amount.getD 0 / monthly_investment * 100 else 0),
            allocation_amount := some (format_currency (stock.allocation_amount.getD 0)),
            reason := some (stock.reason.getD "Selected based on market analysis") }),
        mutual_funds := selected_products.mutual_funds.map (fun mf =>
          { name := some (mf.scheme_name.getD (mf.name.getD "Unknown Fund")),
            allocation_percentage := some (if 0 < monthly_investment then
              mf.allocation_amount.getD 0 / monthly_investment * 100 else 0),
            allocation_amount := some (format_currency (mf.allocation_amount.getD 0)),
            reason := some (mf.reason.getD
              ("Selected from " ++ mf.category.getD "various" ++ " category")) }),
        fixed_deposits := selected_products.fixed_deposits.map (fun fd =>
          { bank := some (fd.bank.getD "Unknown Bank"),
            tenure_months := some (fd.tenure_months.getD 12),
            interest_rate := some (fd.interest_rate.getD 0),
            allocation_percentage := some (if 0 < monthly_investment then
              fd.allocation_amount.getD 0 / monthly_investment * 100 else 0),
            allocation_amount := some (format_currency (fd.allocation_amount.getD 0)),
            reason := some (fd.reason.getD
              ("Selected with interest rate of " ++
                pyStr (.vnum (fd.interest_rate.getD 0)) ++ "%")) }),
        total_allocated := format_currency selected_products.total_allocated },
    suggested_instruments := some fsi,
    projected_returns := some
      { equity := format_currency projected_returns.equity,
        fixed_income := format_currency projected_returns.fixed_income,
        gold := format_currency projected_returns.gold,
        cash := format_currency projected_returns.cash,
        total := format_currency projected_returns.total,
        roi_percentage := formatFixed2 projected_returns.roi_percentage ++ "%" },
    status := "success",
    message := "Investment recommendation generated successfully" }

/-- The try-block of functions.py `generate_final_recommendation` (lines
727-1075).  Notes on the translation:
* `float(state.get("emergency_fund", 0))` acts on a field the model already
  types as a number, so it is total here;
  `float(user_profile.get("monthly_income", 0))` and the `format_currency`
  calls on raw profile values keep their dynamic type and can raise.
* Resolution of `suggested_instruments` (lines 758-790): a value stored by
  `functions.select_investment_products` is nested one level
  (`SuggState.wrapped`), so its only original key is `suggested_instruments`;
  the loop of lines 787-790 then adds the three class keys as empty lists,
  and `any(suggested_instruments.values())` (line 797) is true because the
  nested dict itself is a truthy value.  A flat value keeps its three lists
  and is truthy iff one of them is nonempty, and likewise for the lists
  copied out of `selected_products` by the `elif` of lines 766-775.
* When `any(suggested_instruments.values())` is false, the logging f-string
  at line 872 reads the never-assigned local `stocks`: `NameError`, caught by
  the stage handler; lines 876-944 are unreachable, as is the initial
  `selected_products` binding of line 751 (the truthy branch rebinds it).
* `str` rendering of a float inside the line-1051 reason default goes
  through `pyStr` (see its caveat); the `generated_at` timestamp and all
  `print` logging are outside the model. -/
def genFinalBody (st : GraphState) : Except PyErr GraphState := do
  let user_profile := st.user_profile.getD {}
  let emergency_fund : ℚ := st.emergency_fund.getD 0
  let mi0 : ℚ := user_profile.monthly_investment.getD 0
  let monthly_investment ←
    if mi0 ≤ 0 then do
      let monthly_income ← pyFloatPV (user_profile.monthly_income.getD (.vnum 0))
      let monthly_expenses ← pyFloatPV (user_profile.monthly_expenses.getD (.vnum 0))
      pure ((monthly_income - monthly_expenses) * 0.95)
    else pure mi0
  let asset_allocation := st.asset_allocation.getD
    { equity := some 0.6, fixed_income := some 0.3, cash := some 0.1 }
  let siRes : SuggestedInstruments × Bool :=
    match st.suggested_instruments with
    | some (.wrapped _) => ({}, true)
    | some (.flat si) =>
        (si, !(si.stocks.isEmpty && si.mutual_funds.isEmpty && si.fixed_deposits.isEmpty))
    | none =>
        match st.selected_products with
        | some sp =>
            ({ stocks := sp.stocks, mutual_funds := sp.mutual_funds,
               fixed_deposits := sp.fixed_deposits },
             !(sp.stocks.isEmpty && sp.mutual_funds.isEmpty && sp.fixed_deposits.isEmpty))
        | none => ({}, false)
  let selected_products : SelectedProducts ←
    if siRes.2 then pure (processSuggested monthly_investment siRes.1)
    else throw (.otherError "name \x27stocks\x27 is not defined")
  let projected_returns := st.projected_returns.getD
    { equity := monthly_investment * asset_allocation.equity.getD 0 * 0.10,
      fixed_income := monthly_investment * asset_allocation.fixed_income.getD 0 * 0.06,
      gold := 0,
      cash := monthly_investment * asset_allocation.cash.getD 0 * 0.03,
      total := 0, roi_percentage := 0 }
  let projected_returns :=
    if projected_returns.total = 0 then
      { projected_returns with
        total := projected_returns.equity + projected_returns.fixed_income +
                 projected_returns.gold + projected_returns.cash }
    else projected_returns
  let projected_returns :=
    if projected_returns.roi_percentage = 0 ∧ 0 < monthly_investment then
      { projected_returns with
        roi_percentage := projected_returns.total / monthly_investment * 100 }
    else projected_returns
  let incomeStr ← formatCurrencyPV user_profile.monthly_income
  let expensesStr ← formatCurrencyPV user_profile.monthly_expenses
  pure { st with
    recommendation := some (finalReport st user_profile emergency_fund
      monthly_investment asset_allocation selected_products
      (finalSuggestedOut siRes.1) projected_returns incomeStr expensesStr),
    status := some "recommendation_generated" }

/-- functions.py `generate_final_recommendation` (lines 714-1084): the try
body, with the generic `except Exception` handler of lines 1077-1084
converting any raise into an `error` status over the spread state. -/
def generate_final_recommendation (st : GraphState) : GraphState :=
  match genFinalBody st with
  | .ok s2 => s2
  | .error e =>
      { st with
        error := some ("Error generating final recommendation: " ++ pyErrMsg e),
        status := some "error" }

/-- functions.py `save_recommendation` (lines 1086-1117).  The stage returns a
BARE partial dict, not a spread of the state; on the two failure paths the
dict holds only an `error` key and NO `status` key.  `state["user_id"]` is a
direct index: an absent key raises `KeyError`, caught by the generic handler.
The SQLite insert outcome is the `db` parameter. -/
def save_recommendation (st : GraphState) (db : DbResult) : GraphState :=
  match st.recommendation with
  | none => { error := some "No recommendation to save" }
  | some _ =>
    match st.user_id with
    | none => { error := some "Failed to save recommendation: user_id" }
    | some _ =>
      match db with
      | .ok => { status := some "recommendation_saved" }
      | .fail m => { error := some ("Failed to save recommendation: " ++ m) }

/-- agent_code4.py `handle_error` (lines 113-132). -/
def handle_error (st : GraphState) : GraphState :=
  { st with
    recommendation := some
      { status := "error",
        message := st.error.getD "An unknown error occurred",
        suggested_actions := ["Please try again later",
                              "Contact support if the issue persists"],
        user_id := st.user_id },
    status := some "error_handled" }

/-- agent_code4.py lines 140-143: router after `fetch_user_profile`
(`"check_profile_completeness" if status != "error" else "handle_error"`). -/
def route_after_fetch_profile (s : GraphState) : String :=
  if s.status = some "error" then "handle_error" else "check_profile_completeness"

/-- agent_code4.py lines 145-154: router after `check_profile_completeness`;
a status outside the mapping would make LangGraph itself fail (`none`). -/
def route_after_check_profile (s : GraphState) : Option String :=
  let k := s.status.getD "error"
  if k = "profile_valid" then some "fetch_market_data"
  else if k = "profile_incomplete" then some "generate_fallback_recommendation"
  else if k = "profile_invalid" then some "generate_fallback_recommendation"
  else if k = "error" then some "handle_error"
  else none

/-- agent_code4.py lines 156-159: router after `fetch_market_data`
(`"preprocess_market_data" if status != "error" else "handle_error"`). -/
def route_after_fetch_market (s : GraphState) : String :=
  if s.status = some "error" then "handle_error" else "preprocess_market_data"

/-- agent_code4.py lines 162-165: router after `preprocess_market_data`. -/
def route_after_preprocess (s : GraphState) : String :=
  if s.status = some "market_data_processed" then "calculate_emergency_fund" else "handle_error"

/-- agent_code4.py `route_after_emergency_fund` (lines 167-176); the in-place
`monthly_investment` backfill does not affect the routing result. -/
def route_after_emergency_fund (s : GraphState) : String :=
  if s.status = some "emergency_fund_calculated" then "analyze_goals_and_risk" else "handle_error"

/-- LangGraph merge of a returned partial dict into the state: returned keys
overwrite, absent keys keep the old value. -/
def mergeState (base upd : GraphState) : GraphState :=
  { user_id := upd.user_id.orElse (fun _ => base.user_id),
    user_profile := upd.user_profile.orElse (fun _ => base.user_profile),
    market_data := upd.market_data.orElse (fun _ => base.market_data),
    processed_market_data := upd.processed_market_data.orElse (fun _ => base.processed_market_data),
    emergency_fund := upd.emergency_fund.orElse (fun _ => base.emergency_fund),
    monthly_investment := upd.monthly_investment.orElse (fun _ => base.monthly_investment),
    risk_profile := upd.risk_profile.orElse (fun _ => base.risk_profile),
    time_horizon := upd.time_horizon.orElse (fun _ => base.time_horizon),
    asset_allocation := upd.asset_allocation.orElse (fun _ => base.asset_allocation),
    selected_products := upd.selected_products.orElse (fun _ => base.selected_products),
    suggested_instruments := upd.suggested_instruments.orElse (fun _ => base.suggested_instruments),
    projected_returns := upd.projected_returns.orElse (fun _ => base.projected_returns),
    recommendation := upd.recommendation.orElse (fun _ => base.recommendation),
    missing_fields := upd.missing_fields.orElse (fun _ => base.missing_fields),
    status := upd.status.orElse (fun _ => base.status),
    error := upd.error.orElse (fun _ => base.error) }

/-- Route taken from the `fetch_user_profile` node for a given fetched
profile: the fetch stage runs, its router fires, and when it does not divert
to `handle_error` the completeness stage runs and its router fires. -/
def pipeline_route_from_fetch (st : GraphState) (fetched : FetchedProfile) : Option String :=
  let s1 := fetch_user_profile st fetched
  if route_after_fetch_profile s1 = "handle_error" then some "handle_error"
  else route_after_check_profile (check_profile_completeness s1)

/-! ### Concrete example inputs -/

/-- A complete profile: income 100000, expenses 60000, medium risk, 5y. -/
def profileA : Profile :=
  { monthly_income := some (.vnum 100000), monthly_expenses := some (.vnum 60000),
    risk_appetite := some (.vstr "medium"), investment_horizon_years := some (.vnum 5) }

/-- State seeded with user 16 carrying `profileA`. -/
def stateA : GraphState := { user_id := some 16, user_profile := some profileA }

/-- A profile whose expenses exceed its income. -/
def profileB : Profile :=
  { monthly_income := some (.vnum 50000), monthly_expenses := some (.vnum 60000),
    risk_appetite := some (.vstr "low"), investment_horizon_years := some (.vnum 3) }

/-- State carrying `profileB`. -/
def stateB : GraphState := { user_id := some 3, user_profile := some profileB }

/-- A complete profile with the unrecognized risk appetite `extreme`. -/
def profileExtreme : Profile :=
  { monthly_income := some (.vnum 100000), monthly_expenses := some (.vnum 60000),
    risk_appetite := some (.vstr "extreme"), investment_horizon_years := some (.vnum 5) }

/-- State carrying `profileExtreme`. -/
def stateExtreme : GraphState := { user_id := some 7, user_profile := some profileExtreme }

/-- A state holding only the seeded `user_id`, as at pipeline entry. -/
def stateSeed : GraphState := { user_id := some 16 }

/-- A fetched profile whose `monthly_income` key is absent. -/
def fetchedNoIncome : FetchedProfile :=
  { data := { monthly_expenses := some (.vnum 60000), risk_appetite := some (.vstr "Medium"),
              investment_horizon_years := some (.vnum 5) } }

/-- A fetched profile missing only `investment_horizon_years`. -/
def fetchedNoHorizon : FetchedProfile :=
  { data := { monthly_income := some (.vnum 100000), monthly_expenses := some (.vnum 60000),
              risk_appetite := some (.vstr "Medium") } }

/-- A profile whose `investment_horizon_years` is the non-numeric string
`ten`. -/
def profileBadHorizon : Profile :=
  { monthly_income := some (.vnum 100000), monthly_expenses := some (.vnum 60000),
    risk_appetite := some (.vstr "Medium"), investment_horizon_years := some (.vstr "ten") }

/-- State carrying `profileBadHorizon`. -/
def stateBadHorizon : GraphState := { user_id := some 16, user_profile := some profileBadHorizon }

/-- The medium allocation dict produced by `define_risk_based_allocation`. -/
def mediumAllocation : Allocation :=
  { equity := some 0.6, fixed_income := some 0.3, cash := some 0.1,
    description := some "Balanced portfolio with moderate growth potential",
    risk_profile := some "medium" }

/-- A post-allocation state with empty market data: monthly investment 38000,
medium allocation, and no instrument qualifying in any class. -/
def stateEmptyMarket : GraphState :=
  { user_id := some 16, monthly_investment := some 38000,
    market_data := some {}, asset_allocation := some mediumAllocation }

/-- Market data with three stocks of distinct market caps and one debt fund. -/
def marketDataC : MarketData :=
  { stocks := [{ symbol := some "A", market_cap := some 10 },
               { symbol := some "B", market_cap := some 30 },
               { symbol := some "C", market_cap := some 20 }],
    mutual_funds := [{ scheme_name := some "D1", category := some "debt",
                       returns_5y := some 7 }],
    fixed_deposits := [{ bank := some "SBI", tenure := some "2 year",
                         interest_rate := some 7 }] }

/-- A post-allocation state carrying `marketDataC`. -/
def stateC : GraphState :=
  { user_id := some 16, monthly_investment := some 38000,
    market_data := some marketDataC, asset_allocation := some mediumAllocation }

/-- A state carrying a recommendation payload, ready for `save_recommendation`. -/
def stateWithRec : GraphState :=
  { user_id := some 16,
    recommendation := some { status := "success", message := "ok" } }

/-! ### Helper lemmas -/

theorem round2_intMul (q : ℚ) (n : ℤ) (h : q * 100 = (n : ℚ)) : round2 q = (n : ℚ) / 100 := by
  unfold round2
  rw [h, round_intCast]

theorem abs_round2_sub_le (q : ℚ) : |round2 q - q| ≤ 1 / 200 := by
  have h : |(round (q * 100) : ℚ) - q * 100| ≤ 1 / 2 := by
    have h0 := abs_sub_round (q * 100)
    rwa [abs_sub_comm] at h0
  have h2 : round2 q - q = ((round (q * 100) : ℚ) - q * 100) / 100 := by
    unfold round2; ring
  rw [h2, abs_div, abs_of_pos (show (0 : ℚ) < 100 by norm_num)]
  linarith

theorem round2_split_tolerance (d : ℚ) :
    |round2 (d * 0.05) + round2 (d * 0.95) - round2 d| ≤ 3 / 200 := by
  have h1 := abs_le.mp (abs_round2_sub_le (d * 0.05))
  have h2 := abs_le.mp (abs_round2_sub_le (d * 0.95))
  have h3 := abs_le.mp (abs_round2_sub_le d)
  have key : round2 (d * 0.05) + round2 (d * 0.95) - round2 d =
      (round2 (d * 0.05) - d * 0.05) + (round2 (d * 0.95) - d * 0.95) - (round2 d - d) := by
    ring
  rw [abs_le, key]
  constructor <;> linarith [h1.1, h1.2, h2.1, h2.2, h3.1, h3.2]

theorem pyCharLower_ne_LMH (c : Char) :
    pyCharLower c ≠ 'L' ∧ pyCharLower c ≠ 'M' ∧ pyCharLower c ≠ 'H' := by
  unfold pyCharLower
  split <;> simp_all

theorem pyLower_ne_Low (s : String) : pyLower s ≠ "Low" := by
  intro h
  have hd : s.data.map pyCharLower = ['L', 'o', 'w'] := congrArg String.data h
  cases hs : s.data with
  | nil => rw [hs] at hd; simp at hd
  | cons c t =>
      rw [hs] at hd
      simp only [List.map_cons, List.cons.injEq] at hd
      exact (pyCharLower_ne_LMH c).1 hd.1

theorem pyLower_ne_Medium (s : String) : pyLower s ≠ "Medium" := by
  intro h
  have hd : s.data.map pyCharLower = ['M', 'e', 'd', 'i', 'u', 'm'] := congrArg String.data h
  cases hs : s.data with
  | nil => rw [hs] at hd; simp at hd
  | cons c t =>
      rw [hs] at hd
      simp only [List.map_cons, List.cons.injEq] at hd
      exact (pyCharLower_ne_LMH c).2.1 hd.1

theorem pyLower_ne_High (s : String) : pyLower s ≠ "High" := by
  intro h
  have hd : s.data.map pyCharLower = ['H', 'i', 'g', 'h'] := congrArg String.data h
  cases hs : s.data with
  | nil => rw [hs] at hd; simp at hd
  | cons c t =>
      rw [hs] at hd
      simp only [List.map_cons, List.cons.injEq] at hd
      exact (pyCharLower_ne_LMH c).2.2 hd.1

/-- The lower-cased risk appetite is never one of the capitalised
`RISK_PROFILES` keys. -/
theorem pyLower_not_riskKey (s : String) : riskProfileKeys.contains (pyLower s) = false := by
  simp only [riskProfileKeys, List.contains_cons, List.contains_nil, Bool.or_eq_false_iff,
    beq_eq_false_iff_ne]
  exact ⟨pyLower_ne_Low s, pyLower_ne_Medium s, pyLower_ne_High s, trivial⟩

/-- `pyLowerPV` only succeeds with an ASCII-lower-cased string. -/
theorem pyLowerPV_ok (v : PVal) (w : String) (h : pyLowerPV v = .ok w) :
    ∃ s, w = pyLower s := by
  cases v with
  | vstr s => exact ⟨s, by simpa [pyLowerPV] using h.symm⟩
  | vnum q => simp [pyLowerPV] at h
  | vnone => simp [pyLowerPV] at h

/-- `pyFloatPV` fails with a generic (non-`ValueError`) exception only on
`None`. -/
theorem pyFloatPV_otherError (v : PVal) (m : String)
    (h : pyFloatPV v = .error (.otherError m)) : v = .vnone := by
  cases v with
  | vnone => rfl
  | vnum q => simp [pyFloatPV] at h
  | vstr s =>
      unfold pyFloatPV at h
      cases hp : parseFloat s <;> simp [hp] at h

theorem fieldMissing_false (p : Profile) (fld : String) (h : fieldMissing p fld = false) :
    ∃ v, profileGetPV p fld = some v ∧ v ≠ .vnone := by
  unfold fieldMissing at h
  cases hg : profileGetPV p fld with
  | none => rw [hg] at h; simp at h
  | some v =>
      refine ⟨v, rfl, ?_⟩
      intro hv
      rw [hg, hv] at h
      simp at h

/-- `define_risk_based_allocation` on a state whose risk profile is not a
`DEFAULT_ALLOCATIONS` key falls back to the medium allocation. -/
theorem define_alloc_of_lookup_none (st : GraphState) (rp : String)
    (hrp : st.risk_profile = some rp)
    (hbad : DEFAULT_ALLOCATIONS_lookup (pyLower rp) = none) :
    define_risk_based_allocation st =
      { st with asset_allocation := some mediumAllocation,
                status := some "allocation_defined" } := by
  unfold define_risk_based_allocation
  rw [hrp]
  simp only [Option.getD_some]
  rw [hbad]
  rfl

theorem insertDescBy_perm {α : Type} (key : α → ℚ) (x : α) (l : List α) :
    List.Perm (insertDescBy key x l) (x :: l) := by
  induction l with
  | nil => simp [insertDescBy]
  | cons y ys ih =>
      unfold insertDescBy
      split
      · exact List.Perm.refl _
      · exact (ih.cons y).trans (List.Perm.swap x y ys)

theorem sortDescBy_perm {α : Type} (key : α → ℚ) (l : List α) :
    List.Perm (sortDescBy key l) l := by
  induction l with
  | nil => simp [sortDescBy]
  | cons x xs ih =>
      unfold sortDescBy
      exact (insertDescBy_perm key x (sortDescBy key xs)).trans (ih.cons x)

theorem insertDescBy_pairwise {α : Type} (key : α → ℚ) (x : α) (l : List α)
    (h : l.Pairwise (fun a b => key b ≤ key a)) :
    (insertDescBy key x l).Pairwise (fun a b => key b ≤ key a) := by
  induction l with
  | nil => simp [insertDescBy]
  | cons y ys ih =>
      unfold insertDescBy
      split
      · rename_i hyx
        refine List.Pairwise.cons ?_ h
        intro b hb
        rcases List.mem_cons.mp hb with rfl | hb2
        · exact hyx
        · exact le_trans ((List.pairwise_cons.mp h).1 b hb2) hyx
      · rename_i hyx
        have hys := (List.pairwise_cons.mp h).2
        refine List.Pairwise.cons ?_ (ih hys)
        intro b hb
        have hb' := (insertDescBy_perm key x ys).mem_iff.mp hb
        rcases List.mem_cons.mp hb' with rfl | hb2
        · exact le_of_not_le hyx
        · exact (List.pairwise_cons.mp h).1 b hb2

theorem sortDescBy_pairwise {α : Type} (key : α → ℚ) (l : List α) :
    (sortDescBy key l).Pairwise (fun a b => key b ≤ key a) := by
  induction l with
  | nil => simp [sortDescBy]
  | cons x xs ih => exact insertDescBy_pairwise key x _ ih

/-- The first `n` of a descending sort dominate the remainder: the permutation
decomposition, sortedness of the prefix, and the top-`n` property. -/
theorem sortDescBy_take_top {α : Type} (key : α → ℚ) (l : List α) (n : Nat) :
    List.Perm l ((sortDescBy key l).take n ++ (sortDescBy key l).drop n) ∧
    ((sortDescBy key l).take n).Pairwise (fun a b => key b ≤ key a) ∧
    (∀ x ∈ (sortDescBy key l).take n, ∀ y ∈ (sortDescBy key l).drop n, key y ≤ key x) := by
  have hperm := sortDescBy_perm key l
  have hpw := sortDescBy_pairwise key l
  have hsplit : (sortDescBy key l).take n ++ (sortDescBy key l).drop n = sortDescBy key l :=
    List.take_append_drop n _
  refine ⟨?_, ?_, ?_⟩
  · rw [hsplit]; exact hperm.symm
  · exact hpw.sublist (List.take_sublist n _)
  · have := (List.pairwise_append.mp (by rw [hsplit]; exact hpw)).2.2
    intro x hx y hy
    exact this x hx y hy

theorem length_sortDescBy {α : Type} (key : α → ℚ) (l : List α) :
    (sortDescBy key l).length = l.length :=
  (sortDescBy_perm key l).length_eq

theorem selectTopInsts_length_le (key : Inst → ℚ) (pool : List Inst) (n : ℕ) (amount : ℚ) :
    (selectTopInsts key pool n amount).length ≤ n := by
  unfold selectTopInsts
  split
  · dsimp only
    split
    · rw [List.length_map, List.length_take]
      exact le_trans (min_le_left _ _) (min_le_left n _)
    · simp
  · simp

theorem selectTopInsts_nil (key : Inst → ℚ) (n : ℕ) (amount : ℚ) :
    selectTopInsts key [] n amount = [] := by
  unfold selectTopInsts
  simp [sortDescBy]

theorem selectTopInsts_pos (key : Inst → ℚ) (pool : List Inst) (n : ℕ) (amount : ℚ)
    (hpool : pool ≠ []) (hamt : 0 < amount) (hn : 0 < n) :
    selectTopInsts key pool n amount =
      ((sortDescBy key pool).take (min n pool.length)).map
        (fun x => { x with
          allocation_amount := some (round2 (amount / (min n pool.length : ℕ))) }) := by
  unfold selectTopInsts
  rw [if_pos hamt]
  simp only [length_sortDescBy]
  rw [if_pos (Nat.lt_min.mpr ⟨hn, List.length_pos.mpr hpool⟩)]

theorem selectTopInsts_mem (key : Inst → ℚ) (pool : List Inst) (n : ℕ) (amount : ℚ)
    (x : Inst) (hx : x ∈ selectTopInsts key pool n amount) :
    ∃ y ∈ pool, x = { y with allocation_amount := x.allocation_amount } := by
  unfold selectTopInsts at hx
  split at hx
  · dsimp only at hx
    split at hx
    · rw [List.mem_map] at hx
      obtain ⟨y, hy, hxy⟩ := hx
      have hy2 : y ∈ sortDescBy key pool := List.mem_of_mem_take hy
      have hy3 : y ∈ pool := (sortDescBy_perm key pool).mem_iff.mp hy2
      exact ⟨y, hy3, by rw [← hxy]⟩
    · simp at hx
  · simp at hx

theorem suggestFd_ok (mi : ℚ) (fd : Inst) (h : ∃ n, pyTenureMonths fd.tenure = Except.ok n) :
    ∃ b, suggestFd mi fd = Except.ok b := by
  obtain ⟨n, hn⟩ := h
  have hb : suggestFd mi fd = Except.ok
      { bank := some (fd.bank.getD "Unknown Bank"), tenure_months := some n,
        rate_pct := some (fd.interest_rate.getD 0),
        allocation_percentage := some (if 0 < mi then
          fd.allocation_amount.getD 0 / mi * 100 else 0),
        reason := some ("Selected based on interest rate of " ++
          toString (fd.interest_rate.getD 0) ++ "%") } := by
    unfold suggestFd
    simp only [bind, Except.bind, hn, pure, Except.pure]
  exact ⟨_, hb⟩

/-- Behaviour of one class-selection block after the default-instrument
override, when the class amount is positive and at least one instrument
qualifies: the selection has length `min n |pool|`, is sorted descending by
the class key, every selected instrument carries the equal rounded share,
comes from the pool, and dominates every instrument left unselected by the
descending sort. -/
theorem selectBlock_spec (key : Inst → ℚ) (pool : List Inst) (n : ℕ) (amt : ℚ)
    (deflt : Inst) (sel : List Inst)
    (hkey : ∀ x a, key { x with allocation_amount := a } = key x)
    (hseldef : sel = if selectTopInsts key pool n amt = [] ∧ 0 < amt
      then [deflt] else selectTopInsts key pool n amt)
    (hn : 0 < n) (hpool : pool ≠ []) (hamt : 0 < amt) :
    sel.length = min n pool.length ∧
    sel.Pairwise (fun a b => key b ≤ key a) ∧
    ∀ x ∈ sel,
      x.allocation_amount = some (round2 (amt / (min n pool.length : ℕ))) ∧
      (∃ y ∈ pool, x = { y with allocation_amount := x.allocation_amount }) ∧
      ∀ z ∈ (sortDescBy key pool).drop (min n pool.length), key z ≤ key x := by
  have hlenpos : 0 < min n pool.length :=
    Nat.lt_min.mpr ⟨hn, List.length_pos.mpr hpool⟩
  have hposform := selectTopInsts_pos key pool n amt hpool hamt hn
  have hne : selectTopInsts key pool n amt ≠ [] := by
    rw [hposform]
    intro hnil
    rw [List.map_eq_nil_iff] at hnil
    have : (List.take (min n pool.length) (sortDescBy key pool)).length = 0 := by
      rw [hnil]; rfl
    rw [List.length_take, length_sortDescBy] at this
    omega
  have hsel : sel = selectTopInsts key pool n amt := by
    rw [hseldef, if_neg (by simp [hne])]
  obtain ⟨hperm, hpw, hdom⟩ := sortDescBy_take_top key pool (min n pool.length)
  rw [hsel, hposform]
  refine ⟨?_, ?_, ?_⟩
  · rw [List.length_map, List.length_take, length_sortDescBy]
    exact min_eq_left (min_le_right n pool.length)
  · exact hpw.map _ (fun a b h => by simpa [hkey] using h)
  · intro x hx
    rw [List.mem_map] at hx
    obtain ⟨y, hy, rfl⟩ := hx
    refine ⟨rfl, ⟨y, ?_, rfl⟩, ?_⟩
    · exact hperm.mem_iff.mpr (List.mem_append_left _ hy)
    · intro z hz
      simpa [hkey] using hdom y hy z hz

theorem selBlock_length_le (key : Inst → ℚ) (pool : List Inst) (n : ℕ) (amt : ℚ)
    (deflt : Inst) (hn : 1 ≤ n) :
    (if selectTopInsts key pool n amt = [] ∧ 0 < amt
      then [deflt] else selectTopInsts key pool n amt).length ≤ n := by
  split
  · simpa using hn
  · exact selectTopInsts_length_le key pool n amt

theorem selBlock_default (key : Inst → ℚ) (n : ℕ) (amt : ℚ) (deflt : Inst)
    (hamt : 0 < amt) :
    (if selectTopInsts key [] n amt = [] ∧ 0 < amt
      then [deflt] else selectTopInsts key [] n amt) = [deflt] := by
  rw [if_pos ⟨selectTopInsts_nil key n amt, hamt⟩]

/-- `mapM` over `Except` succeeds when the body succeeds on every element. -/
theorem mapM_ok_of_forall {α β : Type} (f : α → Except PyErr β) (l : List α)
    (h : ∀ a ∈ l, ∃ b, f a = .ok b) : ∃ l', l.mapM f = .ok l' := by
  induction l with
  | nil => exact ⟨[], rfl⟩
  | cons a as ih =>
      obtain ⟨b, hb⟩ := h a (List.mem_cons_self a as)
      obtain ⟨l', hl'⟩ := ih (fun x hx => h x (List.mem_cons_of_mem a hx))
      refine ⟨b :: l', ?_⟩
      rw [List.mapM_cons, hb]
      simp only [bind, Except.bind, hl', pure, Except.pure]

/-- Characterization of `select_investment_products` on the happy path: with
a positive monthly investment, an allocation dict, market data, and parseable
fixed-deposit tenures, the stage reports `products_selected` and its
`selected_products` lists are the three class selections (with the
default-instrument override). -/
theorem select_products_characterization (st : GraphState) (mi er fr cr : ℚ)
    (al : Allocation) (md : MarketData)
    (hmi : st.monthly_investment = some mi) (hpos : 0 < mi)
    (hal : st.asset_allocation = some al)
    (hae : al.equity = some er) (haf : al.fixed_income = some fr) (hac : al.cash = some cr)
    (hmd : st.market_data = some md)
    (htenure : ∀ fd ∈ md.fixed_deposits, ∃ n, pyTenureMonths fd.tenure = Except.ok n) :
    ∃ (si : Option SuggState) (t : ℚ),
      select_investment_products st = { st with
        selected_products := some
          { stocks := (if selectTopInsts stockKey md.stocks 5
                  (mi * (normalizeRatios er fr cr).1) = [] ∧
                0 < mi * (normalizeRatios er fr cr).1
              then [defaultStock (mi * (normalizeRatios er fr cr).1)]
              else selectTopInsts stockKey md.stocks 5 (mi * (normalizeRatios er fr cr).1)),
            mutual_funds := (if selectTopInsts mfKey (debtFunds md) 3
                  (mi * (normalizeRatios er fr cr).2.1) = [] ∧
                0 < mi * (normalizeRatios er fr cr).2.1
              then [defaultMutualFund (mi * (normalizeRatios er fr cr).2.1)]
              else selectTopInsts mfKey (debtFunds md) 3 (mi * (normalizeRatios er fr cr).2.1)),
            fixed_deposits := (if selectTopInsts fdKey md.fixed_deposits 3
                  (mi * (normalizeRatios er fr cr).2.2) = [] ∧
                0 < mi * (normalizeRatios er fr cr).2.2
              then [defaultFixedDeposit (mi * (normalizeRatios er fr cr).2.2)]
              else selectTopInsts fdKey md.fixed_deposits 3 (mi * (normalizeRatios er fr cr).2.2)),
            total_allocated := t },
        suggested_instruments := si,
        monthly_investment := some mi,
        status := some "products_selected" } := by
  have hmem : ∀ x ∈ (if selectTopInsts fdKey md.fixed_deposits 3
        (mi * (normalizeRatios er fr cr).2.2) = [] ∧
      0 < mi * (normalizeRatios er fr cr).2.2
    then [defaultFixedDeposit (mi * (normalizeRatios er fr cr).2.2)]
    else selectTopInsts fdKey md.fixed_deposits 3 (mi * (normalizeRatios er fr cr).2.2)),
      ∃ b, suggestFd mi x = Except.ok b := by
    intro x hx
    split at hx
    · simp only [List.mem_singleton] at hx
      subst hx
      exact suggestFd_ok mi _ ⟨12, rfl⟩
    · obtain ⟨y, hy, hxy⟩ := selectTopInsts_mem _ _ _ _ x hx
      obtain ⟨n, hn⟩ := htenure y hy
      exact suggestFd_ok mi x ⟨n, by rw [hxy]; exact hn⟩
  obtain ⟨l, hl⟩ := mapM_ok_of_forall (suggestFd mi) _ hmem
  have key : select_investment_products st = { st with
      selected_products := some
        { stocks := (if selectTopInsts stockKey md.stocks 5
                (mi * (normalizeRatios er fr cr).1) = [] ∧
              0 < mi * (normalizeRatios er fr cr).1
            then [defaultStock (mi * (normalizeRatios er fr cr).1)]
            else selectTopInsts stockKey md.stocks 5 (mi * (normalizeRatios er fr cr).1)),
          mutual_funds := (if selectTopInsts mfKey (debtFunds md) 3
                (mi * (normalizeRatios er fr cr).2.1) = [] ∧
              0 < mi * (normalizeRatios er fr cr).2.1
            then [defaultMutualFund (mi * (normalizeRatios er fr cr).2.1)]
            else selectTopInsts mfKey (debtFunds md) 3 (mi * (normalizeRatios er fr cr).2.1)),
          fixed_deposits := (if selectTopInsts fdKey md.fixed_deposits 3
                (mi * (normalizeRatios er fr cr).2.2) = [] ∧
              0 < mi * (normalizeRatios er fr cr).2.2
            then [defaultFixedDeposit (mi * (normalizeRatios er fr cr).2.2)]
            else selectTopInsts fdKey md.fixed_deposits 3 (mi * (normalizeRatios er fr cr).2.2)),
          total_allocated := round2
            (sumAlloc (if selectTopInsts stockKey md.stocks 5
                  (mi * (normalizeRatios er fr cr).1) = [] ∧
                0 < mi * (normalizeRatios er fr cr).1
              then [defaultStock (mi * (normalizeRatios er fr cr).1)]
              else selectTopInsts stockKey md.stocks 5 (mi * (normalizeRatios er fr cr).1)) +
             sumAlloc (if selectTopInsts mfKey (debtFunds md) 3
                  (mi * (normalizeRatios er fr cr).2.1) = [] ∧
                0 < mi * (normalizeRatios er fr cr).2.1
              then [defaultMutualFund (mi * (normalizeRatios er fr cr).2.1)]
              else selectTopInsts mfKey (debtFunds md) 3 (mi * (normalizeRatios er fr cr).2.1)) +
             sumAlloc (if selectTopInsts fdKey md.fixed_deposits 3
                  (mi * (normalizeRatios er fr cr).2.2) = [] ∧
                0 < mi * (normalizeRatios er fr cr).2.2
              then [defaultFixedDeposit (mi * (normalizeRatios er fr cr).2.2)]
              else selectTopInsts fdKey md.fixed_deposits 3
                (mi * (normalizeRatios er fr cr).2.2))) },
      suggested_instruments := some (.wrapped
        { stocks := (if selectTopInsts stockKey md.stocks 5
                (mi * (normalizeRatios er fr cr).1) = [] ∧
              0 < mi * (normalizeRatios er fr cr).1
            then [defaultStock (mi * (normalizeRatios er fr cr).1)]
            else selectTopInsts stockKey md.stocks 5
              (mi * (normalizeRatios er fr cr).1)).map (suggestStock mi),
          mutual_funds := (if selectTopInsts mfKey (debtFunds md) 3
                (mi * (normalizeRatios er fr cr).2.1) = [] ∧
              0 < mi * (normalizeRatios er fr cr).2.1
            then [defaultMutualFund (mi * (normalizeRatios er fr cr).2.1)]
            else selectTopInsts mfKey (debtFunds md) 3
              (mi * (normalizeRatios er fr cr).2.1)).map (suggestMf mi),
          fixed_deposits := l }),
      monthly_investment := some mi,
      status := some "products_selected" } := by
    unfold select_investment_products selectProductsBody
    simp only [hmi, hal, hmd, hae, haf, hac, Option.getD_some, bind, Except.bind,
      pure, Except.pure]
    rw [if_neg (not_le.mpr hpos)]
    rw [hl]
  exact ⟨_, _, key⟩

/-- A successful `checkProfileBody` always carries status `profile_valid`. -/
theorem checkProfileBody_ok_status (st : GraphState) (p : Profile) (s2 : GraphState)
    (h : checkProfileBody st p = Except.ok s2) : s2.status = some "profile_valid" := by
  unfold checkProfileBody at h
  cases h1 : pyFloatPV (p.monthly_income.getD .vnone) with
  | error e =>
      simp only [h1, bind, Except.bind] at h
      exact Except.noConfusion h
  | ok q1 =>
      cases h2 : pyFloatPV (p.monthly_expenses.getD .vnone) with
      | error e =>
          simp only [h1, h2, bind, Except.bind] at h
          exact Except.noConfusion h
      | ok q2 =>
          simp only [h1, h2, bind, Except.bind, pure, Except.pure, throw, throwThe,
            MonadExceptOf.throw] at h
          repeat' split at h
          all_goals
            first
            | exact Except.noConfusion h
            | (simp only [Except.ok.injEq] at h; subst h; rfl)

/-- A successful `selectProductsBody` always carries status
`products_selected`. -/
theorem selectProductsBody_ok_status (st : GraphState) (s2 : GraphState)
    (h : selectProductsBody st = Except.ok s2) : s2.status = some "products_selected" := by
  unfold selectProductsBody at h
  simp only [bind, Except.bind, pure, Except.pure, throw, throwThe,
    MonadExceptOf.throw] at h
  repeat' split at h
  all_goals
    first
    | exact Except.noConfusion h
    | (simp only [Except.ok.injEq] at h; subst h; rfl)

set_option maxHeartbeats 3200000 in
/-- A successful run of the final-recommendation try-block always carries
status `recommendation_generated` (functions.py line 1074). -/
theorem genFinalBody_ok_status (st : GraphState) (s2 : GraphState)
    (h : genFinalBody st = Except.ok s2) : s2.status = some "recommendation_generated" := by
  unfold genFinalBody at h
  simp only [bind, Except.bind, pure, Except.pure, throw, throwThe,
    MonadExceptOf.throw] at h
  repeat' split at h
  all_goals
    first
    | exact Except.noConfusion h
    | (simp only [Except.ok.injEq] at h; subst h; rfl)

/-- A normal return of `analyze_goals_and_risk` always carries status
`risk_analyzed`. -/
theorem analyze_ok_status (st : GraphState) (r : GraphState)
    (h : analyze_goals_and_risk st = Except.ok r) : r.status = some "risk_analyzed" := by
  unfold analyze_goals_and_risk at h
  simp only [bind, Except.bind, pure, Except.pure] at h
  repeat' split at h
  all_goals
    first
    | exact Except.noConfusion h
    | (simp only [Except.ok.injEq] at h; subst h; rfl)

/-! ### Claim theorems -/

/-- C1: for every profile with monthly_income > monthly_expenses, the
CalculateEmergencyFund stage sets `emergency_fund = round2(0.05 · disposable)`
and `monthly_investment = round2(0.95 · disposable)`, returns status
`emergency_fund_calculated`, and the two rounded parts sum to
`round2 disposable` within rounding tolerance (3/200). -/
theorem c1_emergency_fund_split (st : GraphState) (p : Profile) (i e : ℚ)
    (hp : st.user_profile = some p)
    (hi : p.monthly_income = some (.vnum i))
    (he : p.monthly_expenses = some (.vnum e))
    (hlt : e < i) :
    (calculate_emergency_fund st).status = some "emergency_fund_calculated" ∧
    (calculate_emergency_fund st).emergency_fund = some (round2 ((i - e) * 0.05)) ∧
    (calculate_emergency_fund st).monthly_investment = some (round2 ((i - e) * 0.95)) ∧
    |round2 ((i - e) * 0.05) + round2 ((i - e) * 0.95) - round2 (i - e)| ≤ 3 / 200 := by
  have hne : ¬ i - e ≤ 0 := by linarith
  unfold calculate_emergency_fund
  rw [hp]
  simp only [Option.getD_some, hi, he, pyFloatPV, bind, Except.bind, pure, Except.pure,
    if_neg hne]
  exact ⟨by simp, by simp, by simp, round2_split_tolerance (i - e)⟩

/-- C1 witness: income 100000 and expenses 60000 yield emergency fund 2000.00,
monthly investment 38000.00 and status `emergency_fund_calculated`. -/
theorem c1_emergency_fund_split_witness :
    (calculate_emergency_fund stateA).status = some "emergency_fund_calculated" ∧
    (calculate_emergency_fund stateA).emergency_fund = some 2000 ∧
    (calculate_emergency_fund stateA).monthly_investment = some 38000 := by
  have h := c1_emergency_fund_split stateA profileA 100000 60000 rfl rfl rfl (by norm_num)
  refine ⟨h.1, ?_, ?_⟩
  · rw [h.2.1, round2_intMul ((100000 - 60000 : ℚ) * 0.05) 200000 (by norm_num)]
    simp only [Option.some_inj]
    norm_num
  · rw [h.2.2.1, round2_intMul ((100000 - 60000 : ℚ) * 0.95) 3800000 (by norm_num)]
    simp only [Option.some_inj]
    norm_num

/-- C4: a profile with monthly_income ≤ monthly_expenses that reaches the
CalculateEmergencyFund stage gets status `error` with the message naming the
cause, and the router then sends the pipeline to HandleError. -/
theorem c4_income_le_expenses_handle_error (st : GraphState) (p : Profile) (i e : ℚ)
    (hp : st.user_profile = some p)
    (hi : p.monthly_income = some (.vnum i))
    (he : p.monthly_expenses = some (.vnum e))
    (hle : i ≤ e) :
    (calculate_emergency_fund st).status = some "error" ∧
    (calculate_emergency_fund st).error = some "Monthly expenses exceed or equal monthly income" ∧
    route_after_emergency_fund (calculate_emergency_fund st) = "handle_error" := by
  have hpos : i - e ≤ 0 := by linarith
  unfold calculate_emergency_fund
  rw [hp]
  simp only [Option.getD_some, hi, he, pyFloatPV, bind, Except.bind, pure, Except.pure,
    if_pos hpos]
  refine ⟨by simp, by simp, ?_⟩
  simp [route_after_emergency_fund]

/-- C4 witness: income 50000 ≤ expenses 60000 yields the error status, the
cause-naming message and the `handle_error` route. -/
theorem c4_income_le_expenses_handle_error_witness :
    (calculate_emergency_fund stateB).status = some "error" ∧
    (calculate_emergency_fund stateB).error
      = some "Monthly expenses exceed or equal monthly income" ∧
    route_after_emergency_fund (calculate_emergency_fund stateB) = "handle_error" :=
  c4_income_le_expenses_handle_error stateB profileB 50000 60000 rfl rfl rfl (by norm_num)

/-- C2 counterexample: a fetched profile missing `monthly_income` (the other
three required fields present) is rejected by `fetch_user_profile` itself with
status `error`, and the pipeline routes to HandleError, not to
GenerateFallbackRecommendation. -/
theorem c2_counterexample :
    (fetch_user_profile stateSeed fetchedNoIncome).status = some "error" ∧
    pipeline_route_from_fetch stateSeed fetchedNoIncome = some "handle_error" := by
  constructor <;> rfl

/-- C2 amended: only a fetched profile missing exactly
`investment_horizon_years` (with income, expenses and risk appetite present)
routes to GenerateFallbackRecommendation with status `profile_incomplete` and
a message listing the missing field; a profile missing `monthly_income`,
`monthly_expenses` or `risk_appetite` is rejected at FetchUserProfile with
status `error` and routes to HandleError. -/
theorem c2_amended (st : GraphState) (uid : ℤ) (f : FetchedProfile)
    (hu : st.user_id = some uid) (hu0 : uid ≠ 0) (hf : f.error = none) :
    ((fieldMissing f.data "monthly_income" = false ∧
      fieldMissing f.data "monthly_expenses" = false ∧
      fieldMissing f.data "risk_appetite" = false ∧
      fieldMissing f.data "investment_horizon_years" = true) →
      pipeline_route_from_fetch st f = some "generate_fallback_recommendation" ∧
      (check_profile_completeness (fetch_user_profile st f)).status = some "profile_incomplete" ∧
      (check_profile_completeness (fetch_user_profile st f)).missing_fields
        = some ["investment_horizon_years"] ∧
      ((generate_fallback_recommendation
          (check_profile_completeness (fetch_user_profile st f))).recommendation.map
        Recommendation.message)
        = some "Please provide the following information: investment_horizon_years.") ∧
    ((fieldMissing f.data "monthly_income" = true ∨
      fieldMissing f.data "monthly_expenses" = true ∨
      fieldMissing f.data "risk_appetite" = true) →
      pipeline_route_from_fetch st f = some "handle_error") := by
  constructor
  · rintro ⟨hm1, hm2, hm3, hm4⟩
    have hfetch : fetch_user_profile st f =
        { st with user_profile := some f.data, status := some "success" } := by
      unfold fetch_user_profile
      rw [hu, hf]
      simp [hu0, missingOf, hm1, hm2, hm3]
    have hmiss : missingOf f.data requiredFields = ["investment_horizon_years"] := by
      simp [missingOf, requiredFields, List.filter, hm1, hm2, hm3, hm4]
    have hcheck : check_profile_completeness (fetch_user_profile st f) =
        { st with user_profile := some f.data,
                  status := some "profile_incomplete",
                  missing_fields := some ["investment_horizon_years"],
                  error := some ("Missing required fields: " ++
                    joinComma ["investment_horizon_years"]) } := by
      rw [hfetch]
      unfold check_profile_completeness
      simp only [Option.getD_some]
      rw [hmiss]
      simp
    refine ⟨?_, ?_, ?_, ?_⟩
    · show (if route_after_fetch_profile (fetch_user_profile st f) = "handle_error"
          then some "handle_error"
          else route_after_check_profile (check_profile_completeness (fetch_user_profile st f)))
          = some "generate_fallback_recommendation"
      rw [hcheck, hfetch]
      rfl
    · rw [hcheck]
    · rw [hcheck]
    · rw [hcheck]
      rfl
  · intro hm
    have hne : missingOf f.data ["monthly_income", "monthly_expenses", "risk_appetite"] ≠ [] := by
      intro hnil
      unfold missingOf at hnil
      rw [List.filter_eq_nil_iff] at hnil
      rcases hm with hm | hm | hm
      · exact absurd hm (by simpa using hnil "monthly_income" (by simp))
      · exact absurd hm (by simpa using hnil "monthly_expenses" (by simp))
      · exact absurd hm (by simpa using hnil "risk_appetite" (by simp))
    have hfetch : fetch_user_profile st f =
        { st with
            status := some "error",
            error := some ("Profile is missing required fields: " ++
              joinComma (missingOf f.data
                ["monthly_income", "monthly_expenses", "risk_appetite"])) } := by
      unfold fetch_user_profile
      rw [hu, hf]
      simp [hu0, hne]
    show (if route_after_fetch_profile (fetch_user_profile st f) = "handle_error"
        then some "handle_error"
        else route_after_check_profile (check_profile_completeness (fetch_user_profile st f)))
        = some "handle_error"
    rw [hfetch]
    rfl

/-- C2 witness: with user 16, a fetched profile missing only the horizon
routes to the fallback stage, and one missing `monthly_income` routes to
HandleError. -/
theorem c2_amended_witness :
    pipeline_route_from_fetch stateSeed fetchedNoHorizon = some "generate_fallback_recommendation" ∧
    pipeline_route_from_fetch stateSeed fetchedNoIncome = some "handle_error" := by
  constructor
  · exact ((c2_amended stateSeed 16 fetchedNoHorizon rfl (by decide) rfl).1
      (by refine ⟨?_, ?_, ?_, ?_⟩ <;> rfl)).1
  · exact (c2_amended stateSeed 16 fetchedNoIncome rfl (by decide) rfl).2 (Or.inl rfl)

/-- C3 counterexample: a complete profile with risk_appetite `extreme` is NOT
normalized to `medium`: `check_profile_completeness` returns status
`profile_invalid` with an error message, and the router diverts to the
fallback stage instead of proceeding to FetchMarketData. -/
theorem c3_counterexample :
    (check_profile_completeness stateExtreme).status = some "profile_invalid" ∧
    (check_profile_completeness stateExtreme).error
      = some "Invalid profile data: Invalid risk profile: extreme" ∧
    route_after_check_profile (check_profile_completeness stateExtreme)
      = some "generate_fallback_recommendation" := by
  refine ⟨rfl, rfl, rfl⟩

/-- C3 amended: an unrecognized risk appetite is a hard validation failure at
CheckProfileCompleteness (status `profile_invalid`, routed to the fallback
stage); only the later DefineRiskBasedAllocation stage defaults an
unrecognized risk profile to the `medium` allocation with a warning instead
of an error. -/
theorem c3_amended :
    (∀ (st : GraphState) (p : Profile),
      st.user_profile = some p →
      (∀ fld ∈ requiredFields, fieldMissing p fld = false) →
      (pyLower (pyStrip (pyStr (p.risk_appetite.getD (.vstr "")))) ≠ "low" ∧
       pyLower (pyStrip (pyStr (p.risk_appetite.getD (.vstr "")))) ≠ "medium" ∧
       pyLower (pyStrip (pyStr (p.risk_appetite.getD (.vstr "")))) ≠ "high") →
      (check_profile_completeness st).status = some "profile_invalid" ∧
      route_after_check_profile (check_profile_completeness st)
        = some "generate_fallback_recommendation") ∧
    (∀ (st : GraphState) (rp : String),
      st.risk_profile = some rp →
      DEFAULT_ALLOCATIONS_lookup (pyLower rp) = none →
      (define_risk_based_allocation st).asset_allocation = some mediumAllocation ∧
      (define_risk_based_allocation st).status = some "allocation_defined") := by
  constructor
  · intro st p hp hall hrl
    obtain ⟨hr1, hr2, hr3⟩ := hrl
    have hm : missingOf p requiredFields = [] := by
      unfold missingOf
      rw [List.filter_eq_nil_iff]
      intro a ha
      rw [hall a ha]
      simp
    obtain ⟨m, hbody⟩ : ∃ m, checkProfileBody st p = Except.error (.valueError m) := by
      obtain ⟨v1, hg1, hv1⟩ := fieldMissing_false p "monthly_income"
        (hall "monthly_income" (by simp [requiredFields]))
      obtain ⟨v2, hg2, hv2⟩ := fieldMissing_false p "monthly_expenses"
        (hall "monthly_expenses" (by simp [requiredFields]))
      have hg1' : p.monthly_income = some v1 := hg1
      have hg2' : p.monthly_expenses = some v2 := hg2
      unfold checkProfileBody
      rw [hg1', hg2']
      cases hf1 : pyFloatPV v1 with
      | error err =>
          cases err with
          | valueError m => exact ⟨m, by simp [bind, Except.bind, hf1]⟩
          | otherError m => exact absurd (pyFloatPV_otherError v1 m hf1) hv1
      | ok q1 =>
          cases hf2 : pyFloatPV v2 with
          | error err =>
              cases err with
              | valueError m => exact ⟨m, by simp [bind, Except.bind, hf1, hf2]⟩
              | otherError m => exact absurd (pyFloatPV_otherError v2 m hf2) hv2
          | ok q2 =>
              refine ⟨"Invalid risk profile: " ++
                pyStrip (pyStr (p.risk_appetite.getD (.vstr ""))), ?_⟩
              simp only [Option.getD_some, bind, Except.bind, hf1, hf2]
              simp only [apply_ite Profile.risk_appetite, ite_self]
              rw [if_neg hr1, if_neg hr2, if_neg hr3]
    have hcheck : check_profile_completeness st =
        { st with status := some "profile_invalid",
                  error := some ("Invalid profile data: " ++ m) } := by
      unfold check_profile_completeness
      rw [hp]
      simp only [Option.getD_some]
      rw [hm]
      simp [hbody]
    rw [hcheck]
    constructor <;> trivial
  · intro st rp hrp hbad
    rw [define_alloc_of_lookup_none st rp hrp hbad]
    constructor <;> trivial

/-- C3 witness: the `extreme` profile hits `profile_invalid` and the fallback
route, while a state whose risk_profile is `extreme` still gets the medium
allocation from DefineRiskBasedAllocation. -/
theorem c3_amended_witness :
    ((check_profile_completeness stateExtreme).status = some "profile_invalid" ∧
     route_after_check_profile (check_profile_completeness stateExtreme)
       = some "generate_fallback_recommendation") ∧
    ((define_risk_based_allocation { risk_profile := some "extreme" }).asset_allocation
       = some mediumAllocation ∧
     (define_risk_based_allocation { risk_profile := some "extreme" }).status
       = some "allocation_defined") := by
  constructor
  · exact c3_amended.1 stateExtreme profileExtreme rfl (by decide)
      (by refine ⟨?_, ?_, ?_⟩ <;> decide)
  · exact c3_amended.2 { risk_profile := some "extreme" } "extreme" rfl rfl

/-- C5 counterexample: on a successful market fetch the resulting status is
`market_data_fetched`, not `success`, yet the router still sends the pipeline
to PreprocessMarketData — the router keys on `status != "error"`, not on
`status == "success"`. -/
theorem c5_counterexample :
    (fetch_market_data stateSeed {}).status = some "market_data_fetched" ∧
    (fetch_market_data stateSeed {}).status ≠ some "success" ∧
    route_after_fetch_market (fetch_market_data stateSeed {}) = "preprocess_market_data" := by
  refine ⟨rfl, by decide, rfl⟩

/-- C5 amended: both routers send the pipeline onward exactly when the
resulting status is NOT `error` (and to HandleError when it is).  For
`fetch_user_profile`, whose only statuses are `success` and `error`, this
coincides with routing onward exactly on `success`; `fetch_market_data`
reports `market_data_fetched` on success and is still routed onward. -/
theorem c5_amended :
    (∀ (st : GraphState) (f : FetchedProfile),
      route_after_fetch_profile (fetch_user_profile st f) = "check_profile_completeness" ↔
        (fetch_user_profile st f).status = some "success") ∧
    (∀ (st : GraphState) (md : MarketData),
      route_after_fetch_market (fetch_market_data st md) = "preprocess_market_data" ↔
        (fetch_market_data st md).status ≠ some "error") := by
  constructor
  · intro st f
    unfold fetch_user_profile
    cases st.user_id with
    | none => simp [route_after_fetch_profile]
    | some uid =>
      by_cases h0 : uid = 0
      · simp [h0, route_after_fetch_profile]
      · simp only [if_neg h0]
        cases f.error with
        | some e => simp [route_after_fetch_profile]
        | none =>
          by_cases hm : missingOf f.data ["monthly_income", "monthly_expenses", "risk_appetite"] = []
          · simp [hm, route_after_fetch_profile]
          · simp [hm, route_after_fetch_profile]
  · intro st md
    unfold fetch_market_data
    cases md.fetchError with
    | some e => simp [route_after_fetch_market]
    | none => simp [route_after_fetch_market]

/-- C5 witness: the fetch-market router applied at a concrete input. -/
theorem c5_amended_witness :
    route_after_fetch_market (fetch_market_data stateSeed {}) = "preprocess_market_data" :=
  (c5_amended.2 stateSeed {}).mpr (by decide)

/-- C7: `analyze_goals_and_risk` has no try/except, so a profile whose
`investment_horizon_years` is not convertible to an integer makes `int(...)`
raise a `ValueError` that escapes the stage uncaught, contradicting the
stated propagation policy. -/
theorem c7_analyze_uncaught_exception :
    analyze_goals_and_risk stateBadHorizon
      = .error (.valueError "invalid literal for int() with base 10: ten") := by
  rfl

/-- C8 counterexample: with the all-zero ratio triple the normalisation in
`select_investment_products` is skipped (the total is not positive), and the
ratios used afterwards sum to 0, not 1. -/
theorem c8_counterexample :
    (normalizeRatios 0 0 0).1 + (normalizeRatios 0 0 0).2.1 + (normalizeRatios 0 0 0).2.2
      ≠ 1 := by
  simp only [normalizeRatios]
  norm_num

/-- C8 amended: whenever the input ratios have positive sum — in particular
whenever they do not sum to 1 but have a positive total — the normalised
ratios used to compute the per-class amounts sum to exactly 1. -/
theorem c8_normalization_sums_to_one (e f c : ℚ) (h : 0 < e + f + c) :
    (normalizeRatios e f c).1 + (normalizeRatios e f c).2.1 + (normalizeRatios e f c).2.2
      = 1 := by
  simp only [normalizeRatios]
  rw [if_pos h]
  show e / (e + f + c) + f / (e + f + c) + c / (e + f + c) = 1
  rw [div_add_div_same, div_add_div_same, div_self (ne_of_gt h)]

/-- C8 witness: ratios (2, 3, 5), which do not sum to 1, normalise to a triple
summing to exactly 1. -/
theorem c8_normalization_sums_to_one_witness :
    (normalizeRatios 2 3 5).1 + (normalizeRatios 2 3 5).2.1 + (normalizeRatios 2 3 5).2.2
      = 1 :=
  c8_normalization_sums_to_one 2 3 5 (by norm_num)

/-- C10: whenever `analyze_goals_and_risk` returns, the reported risk profile
is `moderate` — the lower-cased appetite is tested against the capitalised
`RISK_PROFILES` keys and never matches — and the following
`define_risk_based_allocation` therefore always lands on the medium
allocation. -/
theorem c10_risk_profile_always_moderate (st r : GraphState)
    (h : analyze_goals_and_risk st = .ok r) :
    r.risk_profile = some "moderate" ∧
    (define_risk_based_allocation (mergeState st r)).asset_allocation = some mediumAllocation ∧
    (define_risk_based_allocation (mergeState st r)).status = some "allocation_defined" := by
  have hrp : r.risk_profile = some "moderate" := by
    unfold analyze_goals_and_risk at h
    cases hl : pyLowerPV ((st.user_profile.getD {}).risk_appetite.getD (.vstr "moderate")) with
    | error e =>
        simp only [hl, bind, Except.bind] at h
        exact Except.noConfusion h
    | ok w =>
        obtain ⟨s, rfl⟩ := pyLowerPV_ok _ w hl
        simp only [hl, bind, Except.bind, pyLower_not_riskKey s] at h
        cases hi : pyIntPV ((st.user_profile.getD {}).investment_horizon_years.getD (.vnum 5)) with
        | error e =>
            simp only [hi, bind, Except.bind] at h
            exact Except.noConfusion h
        | ok n =>
            simp only [hi, bind, Except.bind, pure, Except.pure, Except.ok.injEq] at h
            rw [← h]
            simp
  have hmerge : (mergeState st r).risk_profile = some "moderate" := by
    simp [mergeState, hrp, Option.orElse]
  rw [define_alloc_of_lookup_none (mergeState st r) "moderate" hmerge rfl]
  exact ⟨hrp, rfl, rfl⟩

/-- C10 witness: on the complete medium-risk profile the stage returns
risk_profile `moderate` and the allocation stage lands on medium. -/
theorem c10_risk_profile_always_moderate_witness :
    analyze_goals_and_risk stateA = .ok
      { risk_profile := some "moderate", time_horizon := some 5,
        status := some "risk_analyzed" } ∧
    (define_risk_based_allocation (mergeState stateA
      { risk_profile := some "moderate", time_horizon := some 5,
        status := some "risk_analyzed" })).asset_allocation = some mediumAllocation := by
  refine ⟨rfl, ?_⟩
  exact (c10_risk_profile_always_moderate stateA
    { risk_profile := some "moderate", time_horizon := some 5,
      status := some "risk_analyzed" } rfl).2.1

/-- C9 counterexample: the graph binds the `select_investment_products` node
to `selected_investments.select_investments` (agent_code4.py line 107), which
delegates selection to the LLM and inserts no hard-coded defaults: on a state
with the medium allocation (every class ratio nonzero), positive monthly
investment and empty market data, a defensively-parsed empty LLM reply yields
empty selections for every class — not one default instrument per class — and
status `products_selected`. -/
theorem c9_counterexample :
    (select_investment_products_node stateEmptyMarket (.parsed {})).status
      = some "products_selected" ∧
    (select_investment_products_node stateEmptyMarket (.parsed {})).selected_products
      = some { stocks := [], mutual_funds := [], fixed_deposits := [], total_allocated := 0 } ∧
    stateEmptyMarket.asset_allocation = some mediumAllocation ∧
    stateEmptyMarket.monthly_investment = some 38000 := by
  refine ⟨rfl, rfl, rfl, rfl⟩

/-- C9 amended: the described ranking behaviour belongs to the function
`functions.select_investment_products` (which the graph does not call): it
keeps at most the top 5/3/3 instruments per class ranked descending by the
class metric, splits the class amount evenly (rounded) among them, every
selected instrument comes from the market pool and dominates every instrument
the descending sort leaves unselected, and a class with a positive amount but
zero qualifying instruments gets exactly its hard-coded default instrument. -/
theorem c9_amended (st : GraphState) (mi er fr cr ea fa ca : ℚ)
    (al : Allocation) (md : MarketData)
    (hmi : st.monthly_investment = some mi) (hpos : 0 < mi)
    (hal : st.asset_allocation = some al)
    (hae : al.equity = some er) (haf : al.fixed_income = some fr) (hac : al.cash = some cr)
    (hmd : st.market_data = some md)
    (hea : ea = mi * (normalizeRatios er fr cr).1)
    (hfa : fa = mi * (normalizeRatios er fr cr).2.1)
    (hca : ca = mi * (normalizeRatios er fr cr).2.2)
    (htenure : ∀ fd ∈ md.fixed_deposits, ∃ n, pyTenureMonths fd.tenure = Except.ok n) :
    (select_investment_products st).status = some "products_selected" ∧
    (select_investment_products st).selected_products.isSome = true ∧
    (((select_investment_products st).selected_products.getD {}).stocks.length ≤ 5 ∧
     ((select_investment_products st).selected_products.getD {}).mutual_funds.length ≤ 3 ∧
     ((select_investment_products st).selected_products.getD {}).fixed_deposits.length ≤ 3) ∧
    (md.stocks = [] → 0 < ea →
      ((select_investment_products st).selected_products.getD {}).stocks
        = [defaultStock ea]) ∧
    (debtFunds md = [] → 0 < fa →
      ((select_investment_products st).selected_products.getD {}).mutual_funds
        = [defaultMutualFund fa]) ∧
    (md.fixed_deposits = [] → 0 < ca →
      ((select_investment_products st).selected_products.getD {}).fixed_deposits
        = [defaultFixedDeposit ca]) ∧
    (md.stocks ≠ [] → 0 < ea →
      ((select_investment_products st).selected_products.getD {}).stocks.length
        = min 5 md.stocks.length ∧
      ((select_investment_products st).selected_products.getD {}).stocks.Pairwise
        (fun a b => stockKey b ≤ stockKey a) ∧
      ∀ x ∈ ((select_investment_products st).selected_products.getD {}).stocks,
        x.allocation_amount = some (round2 (ea / (min 5 md.stocks.length : ℕ))) ∧
        (∃ y ∈ md.stocks, x = { y with allocation_amount := x.allocation_amount }) ∧
        ∀ z ∈ (sortDescBy stockKey md.stocks).drop (min 5 md.stocks.length),
          stockKey z ≤ stockKey x) ∧
    (debtFunds md ≠ [] → 0 < fa →
      ((select_investment_products st).selected_products.getD {}).mutual_funds.length
        = min 3 (debtFunds md).length ∧
      ((select_investment_products st).selected_products.getD {}).mutual_funds.Pairwise
        (fun a b => mfKey b ≤ mfKey a) ∧
      ∀ x ∈ ((select_investment_products st).selected_products.getD {}).mutual_funds,
        x.allocation_amount = some (round2 (fa / (min 3 (debtFunds md).length : ℕ))) ∧
        (∃ y ∈ debtFunds md, x = { y with allocation_amount := x.allocation_amount }) ∧
        ∀ z ∈ (sortDescBy mfKey (debtFunds md)).drop (min 3 (debtFunds md).length),
          mfKey z ≤ mfKey x) ∧
    (md.fixed_deposits ≠ [] → 0 < ca →
      ((select_investment_products st).selected_products.getD {}).fixed_deposits.length
        = min 3 md.fixed_deposits.length ∧
      ((select_investment_products st).selected_products.getD {}).fixed_deposits.Pairwise
        (fun a b => fdKey b ≤ fdKey a) ∧
      ∀ x ∈ ((select_investment_products st).selected_products.getD {}).fixed_deposits,
        x.allocation_amount = some (round2 (ca / (min 3 md.fixed_deposits.length : ℕ))) ∧
        (∃ y ∈ md.fixed_deposits, x = { y with allocation_amount := x.allocation_amount }) ∧
        ∀ z ∈ (sortDescBy fdKey md.fixed_deposits).drop (min 3 md.fixed_deposits.length),
          fdKey z ≤ fdKey x) := by
  subst hea
  subst hfa
  subst hca
  obtain ⟨si, t, key⟩ := select_products_characterization st mi er fr cr al md
    hmi hpos hal hae haf hac hmd htenure
  rw [key]
  simp only [Option.getD_some, Option.isSome_some]
  refine ⟨by trivial, by trivial, ⟨?_, ?_, ?_⟩, ?_, ?_, ?_, ?_, ?_, ?_⟩
  · exact selBlock_length_le _ _ _ _ _ (by norm_num)
  · exact selBlock_length_le _ _ _ _ _ (by norm_num)
  · exact selBlock_length_le _ _ _ _ _ (by norm_num)
  · intro hnil hpos2
    rw [hnil]
    exact selBlock_default _ _ _ _ hpos2
  · intro hnil hpos2
    rw [hnil]
    exact selBlock_default _ _ _ _ hpos2
  · intro hnil hpos2
    rw [hnil]
    exact selBlock_default _ _ _ _ hpos2
  · intro hne hpos2
    exact selectBlock_spec stockKey md.stocks 5 _ _ _ (fun x a => rfl) rfl
      (by norm_num) hne hpos2
  · intro hne hpos2
    exact selectBlock_spec mfKey (debtFunds md) 3 _ _ _ (fun x a => rfl) rfl
      (by norm_num) hne hpos2
  · intro hne hpos2
    exact selectBlock_spec fdKey md.fixed_deposits 3 _ _ _ (fun x a => rfl) rfl
      (by norm_num) hne hpos2

/-- C9 witness: on the empty market with the medium allocation and monthly
investment 38000, each class receives exactly its hard-coded default
instrument carrying the full class amount (22800 / 11400 / 3800). -/
theorem c9_amended_witness :
    (select_investment_products stateEmptyMarket).status = some "products_selected" ∧
    ((select_investment_products stateEmptyMarket).selected_products.getD {}).stocks
      = [defaultStock 22800] ∧
    ((select_investment_products stateEmptyMarket).selected_products.getD {}).mutual_funds
      = [defaultMutualFund 11400] ∧
    ((select_investment_products stateEmptyMarket).selected_products.getD {}).fixed_deposits
      = [defaultFixedDeposit 3800] := by
  have hnr : normalizeRatios 0.6 0.3 0.1 = (0.6, 0.3, 0.1) := by
    unfold normalizeRatios
    rw [if_pos (show (0 : ℚ) < 0.6 + 0.3 + 0.1 by norm_num)]
    norm_num
  have h := c9_amended stateEmptyMarket 38000 0.6 0.3 0.1 22800 11400 3800
    mediumAllocation {} rfl (by norm_num) rfl rfl rfl rfl rfl
    (by rw [hnr]; norm_num) (by rw [hnr]; norm_num) (by rw [hnr]; norm_num)
    (by intro fd hfd; simp at hfd)
  exact ⟨h.1, h.2.2.2.1 rfl (by norm_num), h.2.2.2.2.1 rfl (by norm_num),
    h.2.2.2.2.2.1 rfl (by norm_num)⟩

/-- C6 counterexample: `save_recommendation` on a state with no recommendation
returns the bare partial dict `{"error": "No recommendation to save"}` with NO
status key, contradicting the claim that every stage sets `status` before
returning. -/
theorem c6_counterexample :
    (save_recommendation {} DbResult.ok).status = none ∧
    (save_recommendation {} DbResult.ok).error = some "No recommendation to save" :=
  ⟨rfl, rfl⟩

/-- C6 amended: every stage of the graph sets `status` in the partial state
it returns on every path — except `save_recommendation`, which includes a
status key exactly when a recommendation is present, the state has a
`user_id`, and the database insert succeeds (its failure paths return only an
`error` key), and `analyze_goals_and_risk`, which sets `status` whenever it
returns at all (it can instead raise, see C7).  In particular
`generate_final_recommendation` sets it on both of its return paths: the
success path (`recommendation_generated`) and the generic exception handler
(`error`), which also absorbs the `NameError` of functions.py line 872. -/
theorem c6_amended :
    (∀ (st : GraphState) (f : FetchedProfile),
      (fetch_user_profile st f).status.isSome = true) ∧
    (∀ st : GraphState, (check_profile_completeness st).status.isSome = true) ∧
    (∀ st : GraphState, (generate_fallback_recommendation st).status.isSome = true) ∧
    (∀ (st : GraphState) (m : MarketData), (fetch_market_data st m).status.isSome = true) ∧
    (∀ st : GraphState, (preprocess_market_data st).status.isSome = true) ∧
    (∀ st : GraphState, (calculate_emergency_fund st).status.isSome = true) ∧
    (∀ (st r : GraphState), analyze_goals_and_risk st = Except.ok r →
      r.status.isSome = true) ∧
    (∀ st : GraphState, (define_risk_based_allocation st).status.isSome = true) ∧
    (∀ st : GraphState, (select_investment_products st).status.isSome = true) ∧
    (∀ (st : GraphState) (llm : LLMOutcome),
      (select_investments st llm).status.isSome = true) ∧
    (∀ st : GraphState, (calculate_returns st).status.isSome = true) ∧
    (∀ st : GraphState, (generate_final_recommendation st).status.isSome = true) ∧
    (∀ st : GraphState, (handle_error st).status.isSome = true) ∧
    (∀ (st : GraphState) (db : DbResult),
      (save_recommendation st db).status.isSome = true ↔
        (st.recommendation.isSome = true ∧ st.user_id.isSome = true ∧ db = DbResult.ok)) := by
  refine ⟨?_, ?_, ?_, ?_, ?_, ?_, ?_, ?_, ?_, ?_, ?_, ?_, ?_, ?_⟩
  · intro st f
    unfold fetch_user_profile
    repeat' split
    all_goals simp [apply_ite GraphState.status, apply_ite Option.isSome]
  · intro st
    unfold check_profile_completeness
    dsimp only
    split
    · simp
    · split
      · rename_i s2 heq
        rw [checkProfileBody_ok_status st _ s2 heq]
        rfl
      · simp
      · simp
  · intro st
    unfold generate_fallback_recommendation
    simp
  · intro st m
    unfold fetch_market_data
    split <;> simp
  · intro st
    unfold preprocess_market_data
    dsimp only
    repeat' split
    all_goals simp [apply_ite GraphState.status, apply_ite Option.isSome]
  · intro st
    unfold calculate_emergency_fund
    dsimp only
    repeat' split
    all_goals simp [apply_ite GraphState.status, apply_ite Option.isSome]
  · intro st r h
    rw [analyze_ok_status st r h]
    rfl
  · intro st
    unfold define_risk_based_allocation
    simp
  · intro st
    unfold select_investment_products
    split
    · rename_i s2 heq
      rw [selectProductsBody_ok_status st s2 heq]
      rfl
    · simp
    · simp
  · intro st llm
    unfold select_investments
    dsimp only
    repeat' split
    all_goals simp [apply_ite GraphState.status, apply_ite Option.isSome]
  · intro st
    unfold calculate_returns
    dsimp only
    split <;> simp
  · intro st
    unfold generate_final_recommendation
    split
    · rename_i s2 heq
      rw [genFinalBody_ok_status st s2 heq]
      rfl
    · simp
  · intro st
    unfold handle_error
    simp
  · intro st db
    cases hr : st.recommendation <;> cases hu : st.user_id <;> cases db <;>
      simp [save_recommendation, hr, hu]

/-- C6 witness: the stage-status invariant at concrete inputs (including
`generate_final_recommendation`, whose empty-suggestions `NameError` path is
hit by `stateA`), and the characterization of `save_recommendation`
instantiated on a state with a recommendation, a user id and a successful
insert. -/
theorem c6_amended_witness :
    (calculate_emergency_fund stateA).status.isSome = true ∧
    (generate_final_recommendation stateA).status.isSome = true ∧
    (save_recommendation stateWithRec DbResult.ok).status.isSome = true := by
  refine ⟨?_, ?_, ?_⟩
  · exact c6_amended.2.2.2.2.2.1 stateA
  · exact c6_amended.2.2.2.2.2.2.2.2.2.2.2.1 stateA
  · exact (c6_amended.2.2.2.2.2.2.2.2.2.2.2.2.2 stateWithRec DbResult.ok).mpr ⟨rfl, rfl, rfl⟩

end FinAdvisor
